import Mathlib

/-!
Shallow embedding of the coordination / bond-orientational order analysis
modules (math_utils.py, q6_module.py, global_q6_module.py,
coordination_module.py) over the real numbers.  Floating-point arithmetic in
the source is modelled by exact real arithmetic; machine floats carry no NaN
in this model, which is recorded where it matters (the NaN filter of the
global aggregator).
-/

noncomputable section

open scoped Real

/-- A 3-component position or displacement vector, as used throughout the
Python modules (plain sequences of three floats). -/
abbrev Vec3 : Type := ℝ × ℝ × ℝ

/-- math_utils.vector_sub: component-wise difference a - b. -/
def vector_sub (a b : Vec3) : Vec3 :=
  (a.1 - b.1, a.2.1 - b.2.1, a.2.2 - b.2.2)

/-- math_utils.vector_norm: Euclidean norm of a 3D vector. -/
def vector_norm (v : Vec3) : ℝ :=
  Real.sqrt (v.1 * v.1 + v.2.1 * v.2.1 + v.2.2 * v.2.2)

/-- math_utils.clip: clamp value to the inclusive interval
[min_value, max_value]. -/
def clip (value minValue maxValue : ℝ) : ℝ :=
  if value < minValue then minValue
  else if maxValue < value then maxValue
  else value

/-- math_utils.double_factorial: n!! with the source convention that
arguments below one give 1 (the source returns 1 for n <= 0; the natural
number subtraction used at call sites maps the -1 case to 0). -/
def double_factorial : ℕ → ℕ
  | 0 => 1
  | 1 => 1
  | (n + 2) => (n + 2) * double_factorial n

/-- The initial value P_m^m(x) of the associated Legendre recurrence in
math_utils.spherical_harmonic:
p_mm = (-1)^m (2m-1)!! (1 - x^2)^(m/2), the exponent taken as a real power
exactly as the source writes it with a float division m / 2.0. -/
def legendre_pmm (μ : ℕ) (x : ℝ) : ℝ :=
  (-1 : ℝ) ^ μ * (double_factorial (2 * μ - 1) : ℝ) * (1 - x * x) ^ ((μ : ℝ) / 2)

/-- State of the three-term recurrence of math_utils.spherical_harmonic:
`legendre_pair μ x k = (P_(μ+k)^μ(x), P_(μ+k+1)^μ(x))` as computed by the
source loop (entry 0 packs P_m^m with p_m1m = x (2m+1) p_mm). -/
def legendre_pair (μ : ℕ) (x : ℝ) : ℕ → ℝ × ℝ
  | 0 => (legendre_pmm μ x, x * (2 * (μ : ℝ) + 1) * legendre_pmm μ x)
  | (k + 1) =>
      let p := legendre_pair μ x k
      let ell : ℝ := (μ : ℝ) + (k : ℝ) + 2
      (p.2, ((2 * ell - 1) * x * p.2 - (ell + (μ : ℝ) - 1) * p.1) / (ell - (μ : ℝ)))

/-- The associated Legendre value P_l^μ(x) (μ = |m| >= 0) as computed by
math_utils.spherical_harmonic: the p_mm seed when l = μ, otherwise the
second component of the recurrence state after l - μ - 1 steps (which is
x (2μ+1) p_mm when l = μ + 1, matching the source branch). -/
def assoc_legendre (l μ : ℕ) (x : ℝ) : ℝ :=
  if l = μ then legendre_pmm μ x
  else (legendre_pair μ x (l - μ - 1)).2

/-- math_utils.spherical_harmonic, translated literally: the |m| > l guard,
the recurrence value P_l^|m|(cos θ), the negative-m branch multiplying by
(-1)^|m| (l-|m|)! / (l+|m|)!, the normalization
sqrt((2l+1)/(4π) (l-|m|)!/(l+|m|)!) — the source uses |m| here for every
sign of m — and the azimuthal phase exp(i m φ). -/
def spherical_harmonic (l : ℕ) (m : ℤ) (theta phi : ℝ) : ℂ :=
  if l < m.natAbs then 0
  else
    let x : ℝ := Real.cos theta
    let μ : ℕ := m.natAbs
    let p : ℝ := assoc_legendre l μ x
    let p2 : ℝ :=
      if m < 0 then (-1 : ℝ) ^ μ * ((l - μ).factorial : ℝ) / ((l + μ).factorial : ℝ) * p
      else p
    let nrm : ℝ :=
      Real.sqrt ((2 * (l : ℝ) + 1) / (4 * Real.pi) * ((l - μ).factorial : ℝ) /
        ((l + μ).factorial : ℝ))
    ((nrm * p2 : ℝ) : ℂ) * Complex.exp (Complex.I * (m : ℂ) * (phi : ℝ))

/-- Python math.atan2 on real arguments (the zero cases follow the +0.0
behaviour, the one exercised by the embedding). -/
def atan2 (y x : ℝ) : ℝ :=
  if 0 < x then Real.arctan (y / x)
  else if x < 0 then
    (if 0 ≤ y then Real.arctan (y / x) + Real.pi else Real.arctan (y / x) - Real.pi)
  else
    (if 0 < y then Real.pi / 2 else if y < 0 then -(Real.pi / 2) else 0)

/-- q6_module._select_neighbors: with metal_only the positions are restricted
to atoms whose element symbol is Pt or Sn (zip truncates at the shorter
list, as in Python). -/
def select_neighbors (positions : List Vec3) (elements : List String)
    (metalOnly : Bool) : List Vec3 :=
  if metalOnly then
    ((positions.zip elements).filter (fun pe => pe.2 == "Pt" || pe.2 == "Sn")).map Prod.fst
  else positions

/-- q6_module.calc_q_local: local Steinhardt order parameter Q_l.  Neighbors
are kept when their distance to the centre lies strictly in (0.1, cutoff);
fewer than 4 such neighbors gives the 0.0 sentinel.  Otherwise the complex
averages q_lm of spherical harmonics over the neighbor directions are formed
for m in [-l, l] and the result is sqrt(4π/(2l+1) Σ_m |q_lm|^2). -/
def calc_q_local (centralPos : Vec3) (positions : List Vec3)
    (elements : List String) (cutoff : ℝ) (l : ℕ) (metalOnly : Bool) : ℝ :=
  let nbrs := select_neighbors positions elements metalOnly
  if nbrs.isEmpty then 0
  else
    let pairs :=
      (nbrs.map (fun pos =>
        let v := vector_sub pos centralPos
        (v, vector_norm v))).filter
        (fun vd => decide ((0.1 : ℝ) < vd.2) && decide (vd.2 < cutoff))
    if pairs.length < 4 then 0
    else
      let n : ℝ := (pairs.length : ℝ)
      let angles := pairs.map (fun vd =>
        (Real.arccos (clip (vd.1.2.2 / vd.2) (-1) 1), atan2 vd.1.2.1 vd.1.1))
      let qlm : ℤ → ℂ := fun m =>
        (angles.map (fun a => spherical_harmonic l m a.1 a.2)).sum
      let sumSq : ℝ :=
        ((List.range (2 * l + 1)).map
          (fun (k : ℕ) => Complex.abs (qlm ((k : ℤ) - (l : ℤ)) / (n : ℂ)) ^ 2)).sum
      Real.sqrt (4 * Real.pi / (2 * (l : ℝ) + 1) * sumSq)

/-- config.Q6_Q4 q6_cutoff. -/
def q6_cutoff : ℝ := 3.5

/-- q6_module.calc_q6_fast: Q6 with metal-only neighbor selection (the
config flag include_oxygen_in_local is False). -/
def calc_q6_fast (centralPos : Vec3) (positions : List Vec3)
    (elements : List String) (cutoff : ℝ) : ℝ :=
  calc_q_local centralPos positions elements cutoff 6 true

/-- q6_module.calc_q4_fast: Q4 with metal-only neighbor selection. -/
def calc_q4_fast (centralPos : Vec3) (positions : List Vec3)
    (elements : List String) (cutoff : ℝ) : ℝ :=
  calc_q_local centralPos positions elements cutoff 4 true

/-- q6_module.classify_structure_advanced: the fixed (Q4, Q6) decision
tree, literally the nested strict comparisons of the source. -/
def classify_structure_advanced (q4 q6 : ℝ) : String :=
  if 0.60 < q6 then
    if 0.15 < q4 then "FCC-like" else "ICO-like"
  else if 0.50 < q6 then
    if 0.15 < q4 then "FCC-like"
    else if 0.08 < q4 then "HCP-like"
    else "BCC-like"
  else if 0.35 < q6 then "Partially-Ordered"
  else if 0.25 < q6 then "Liquid-like"
  else "Disordered"

/-- The decision tree exactly as the specification words it, with explicit
interval bounds; used to compare classify_structure_advanced against the
claimed table. -/
def classify_spec_tree (q4 q6 : ℝ) : String :=
  if 0.60 < q6 then
    if 0.15 < q4 then "FCC-like" else "ICO-like"
  else if 0.50 < q6 ∧ q6 ≤ 0.60 then
    if 0.15 < q4 then "FCC-like"
    else if 0.08 < q4 then "HCP-like"
    else "BCC-like"
  else if 0.35 < q6 ∧ q6 ≤ 0.50 then "Partially-Ordered"
  else if 0.25 < q6 ∧ q6 ≤ 0.35 then "Liquid-like"
  else "Disordered"

/-- Elementwise core of coordination_module.plumed_switch before the Dmax
and negativity clamps: x = (r - D0)/R0, and (1 - x^NN)/(1 - x^MM) where a
denominator exactly equal to zero has been replaced by 1e-8 (the source
masks `den[den == 0] = 1e-8`). -/
def plumed_switch_raw (R0 : ℝ) (NN MM : ℕ) (D0 : ℝ) (r : ℝ) : ℝ :=
  let x := (r - D0) / R0
  let num := 1 - x ^ NN
  let den := 1 - x ^ MM
  let denUsed := if den = 0 then 1e-8 else den
  num / denUsed

/-- The denominator actually divided by in plumed_switch: the raw
denominator, with only the exactly-zero case replaced by 1e-8. -/
def plumed_switch_den_used (R0 : ℝ) (MM : ℕ) (D0 : ℝ) (r : ℝ) : ℝ :=
  let x := (r - D0) / R0
  let den := 1 - x ^ MM
  if den = 0 then 1e-8 else den

/-- One entry of coordination_module.plumed_switch: the raw ratio, then
entries at distances beyond Dmax are set to 0, then negative values are
set to 0 (in that order, as the two numpy masks are applied). -/
def plumed_switch_elem (R0 : ℝ) (NN MM : ℕ) (D0 Dmax : ℝ) (r : ℝ) : ℝ :=
  let sw := plumed_switch_raw R0 NN MM D0 r
  let sw2 := if Dmax < r then 0 else sw
  if sw2 < 0 then 0 else sw2

/-- coordination_module.plumed_switch over a whole distance array. -/
def plumed_switch (distances : List ℝ) (R0 : ℝ) (NN MM : ℕ) (D0 Dmax : ℝ) :
    List ℝ :=
  distances.map (plumed_switch_elem R0 NN MM D0 Dmax)

/-- Result record of coordination_module.calc_gcn_descriptors. -/
structure GcnResult where
  gcn_loc : ℝ
  w_gcn_loc : ℝ
  sn_w_gcn_loc : ℝ
  shell_gcn_loc : ℝ

/-- One shell window of config.GCN shell: (r_min, r_max, pt_weight,
sn_weight). -/
structure ShellWindow where
  rMin : ℝ
  rMax : ℝ
  ptWeight : ℝ
  snWeight : ℝ

/-- config.GCN shell shells. -/
def gcn_shells : List ShellWindow :=
  [⟨2.0, 2.5, 1.0, 3.0⟩, ⟨2.5, 3.0, 0.8, 2.0⟩, ⟨3.0, 3.5, 0.2, 0.6⟩]

/-- Number of entries of a real list lying in the closed window
[rMin, rMax]; models the numpy mask counting in calc_gcn_descriptors. -/
def count_in_window (ds : List ℝ) (rMin rMax : ℝ) : ℕ :=
  (ds.filter (fun d => decide (rMin ≤ d) && decide (d ≤ rMax))).length

/-- coordination_module.calc_gcn_descriptors with the config.GCN constants
inlined (enable is True; standard r0 0.3 cutoff 3.0; weighted r0 0.3,
pt weight 1.0, sn weight 2.0, cutoff 3.0; sn_weighted window [2.0, 2.8]
with weights 0.8 / 2.5; the three shell windows).  Note the source filters
the self distance (entries <= 0.1) only out of the Pt distance list; the Sn
distance list is used unfiltered. -/
def calc_gcn_descriptors (centralPos : Vec3) (ptPositions snPositions : List Vec3) :
    GcnResult :=
  let ptDists0 := ptPositions.map (fun p => vector_norm (vector_sub p centralPos))
  let snDists := snPositions.map (fun p => vector_norm (vector_sub p centralPos))
  let ptDists := ptDists0.filter (fun d => decide ((0.1 : ℝ) < d))
  -- standard GCN
  let allDists := ptDists ++ snDists
  let gcnLoc := (allDists.map (fun d => if (3.0 : ℝ) < d then 0 else Real.exp (-d / 0.3))).sum
  -- weighted GCN
  let ptW := (ptDists.map (fun d => if (3.0 : ℝ) < d then 0 else 1.0 * Real.exp (-d / 0.3))).sum
  let snW := (snDists.map (fun d => if (3.0 : ℝ) < d then 0 else 2.0 * Real.exp (-d / 0.3))).sum
  -- Sn-weighted (windowed count) GCN
  let snwGcn : ℝ :=
    0.8 * (count_in_window ptDists 2.0 2.8 : ℝ) + 2.5 * (count_in_window snDists 2.0 2.8 : ℝ)
  -- shell GCN
  let shellGcn : ℝ :=
    (gcn_shells.map (fun s =>
      s.ptWeight * (count_in_window ptDists s.rMin s.rMax : ℝ) +
      s.snWeight * (count_in_window snDists s.rMin s.rMax : ℝ))).sum
  ⟨gcnLoc, ptW + snW, snwGcn, shellGcn⟩

/-- np.isnan as seen by this embedding: real arithmetic produces no NaN
(calc_q6_fast is a square root of a finite nonnegative sum), so the
predicate is identically false. -/
def np_isnan (_x : ℝ) : Bool := false

/-- global_q6_module._average_q6_for_mask: positions selected by the mask
are fed to calc_q6_fast against the full frame; values failing np.isnan are
dropped; the mean of the kept values is returned, 0.0 when the mask selects
nothing or nothing is kept. -/
def average_q6_for_mask (positions : List Vec3) (elements : List String)
    (mask : List Bool) (cutoff : ℝ) : ℝ :=
  let selected := ((positions.zip mask).filter (fun pm => pm.2)).map Prod.fst
  if selected.isEmpty then 0
  else
    let vals := selected.map (fun p => calc_q6_fast p positions elements cutoff)
    let kept := vals.filter (fun v => ! np_isnan v)
    if kept.isEmpty then 0
    else kept.sum / (kept.length : ℝ)

/-- Statistics entry of one group in calc_cluster_analysis. -/
structure GroupStats where
  count : ℕ
  q6Global : ℝ

/-- global_q6_module.calc_cluster_analysis as an association list keyed by
the group name; `some stats` models a populated sub-dict and `none` models
the empty sub-dict {} that the source leaves for the metal group when no
metal atom is present (config ELEMENTS metal_elements is [Pt, Sn]). -/
def calc_cluster_analysis (positions : List Vec3) (elements : List String)
    (cutoff : ℝ) : List (String × Option GroupStats) :=
  if positions.isEmpty || elements.isEmpty then
    [("cluster", some ⟨0, 0⟩), ("metal", none),
     ("Pt", some ⟨0, 0⟩), ("Sn", some ⟨0, 0⟩)]
  else
    let ptMask := elements.map (fun e => e == "Pt")
    let snMask := elements.map (fun e => e == "Sn")
    let metalMask := elements.map (fun e => e == "Pt" || e == "Sn")
    let allMask := elements.map (fun _ => true)
    [("cluster",
      some ⟨(allMask.filter id).length,
            average_q6_for_mask positions elements allMask cutoff⟩),
     ("metal",
      if metalMask.any id then
        some ⟨(metalMask.filter id).length,
              average_q6_for_mask positions elements metalMask cutoff⟩
      else none),
     ("Pt",
      some ⟨(ptMask.filter id).length,
            average_q6_for_mask positions elements ptMask cutoff⟩),
     ("Sn",
      some ⟨(snMask.filter id).length,
            average_q6_for_mask positions elements snMask cutoff⟩)]

/-- The normalization factor of spherical_harmonic, written with μ = |m| as
the source does. -/
def ylm_norm (l μ : ℕ) : ℝ :=
  Real.sqrt ((2 * (l : ℝ) + 1) / (4 * Real.pi) * ((l - μ).factorial : ℝ) /
    ((l + μ).factorial : ℝ))

/-- The number of neighbors of the given centre lying strictly inside
(0.1, cutoff); the quantity the sentinel branch of calc_q_local tests. -/
def qualifying_count (centralPos : Vec3) (positions : List Vec3)
    (cutoff : ℝ) : ℕ :=
  ((positions.map (fun p => vector_norm (vector_sub p centralPos))).filter
    (fun r => decide ((0.1 : ℝ) < r) && decide (r < cutoff))).length

/-- The tail of calc_q_local after the neighbor filter: the averaged
spherical-harmonic invariant over the given (vector, distance) pairs;
written exactly as the tail of calc_q_local so the two agree definitionally. -/
def q_from_pairs (l : ℕ) (pairs : List (Vec3 × ℝ)) : ℝ :=
  let n : ℝ := (pairs.length : ℝ)
  let angles := pairs.map (fun vd =>
    (Real.arccos (clip (vd.1.2.2 / vd.2) (-1) 1), atan2 vd.1.2.1 vd.1.1))
  let qlm : ℤ → ℂ := fun m =>
    (angles.map (fun a => spherical_harmonic l m a.1 a.2)).sum
  let sumSq : ℝ :=
    ((List.range (2 * l + 1)).map
      (fun (k : ℕ) => Complex.abs (qlm ((k : ℤ) - (l : ℤ)) / (n : ℂ)) ^ 2)).sum
  Real.sqrt (4 * Real.pi / (2 * (l : ℝ) + 1) * sumSq)

/-! Theorems and evaluation lemmas. -/

lemma spherical_harmonic_def (l : ℕ) (m : ℤ) (h : ¬ l < m.natAbs)
    (theta phi : ℝ) :
    spherical_harmonic l m theta phi =
      ((ylm_norm l m.natAbs *
        (if m < 0 then
          (-1 : ℝ) ^ m.natAbs * ((l - m.natAbs).factorial : ℝ) /
            ((l + m.natAbs).factorial : ℝ) * assoc_legendre l m.natAbs (Real.cos theta)
         else assoc_legendre l m.natAbs (Real.cos theta)) : ℝ) : ℂ) *
        Complex.exp (Complex.I * (m : ℂ) * ((phi : ℝ) : ℂ)) := by
  simp only [spherical_harmonic, if_neg h, ylm_norm]

lemma legendre_pmm_zero (μ : ℕ) :
    legendre_pmm μ 0 = (-1 : ℝ) ^ μ * (double_factorial (2 * μ - 1) : ℝ) := by
  norm_num [legendre_pmm, Real.one_rpow]

lemma legendre_pmm_one (μ : ℕ) (hμ : μ ≠ 0) : legendre_pmm μ 1 = 0 := by
  have he : ((μ : ℝ) / 2) ≠ 0 :=
    div_ne_zero (Nat.cast_ne_zero.mpr hμ) two_ne_zero
  norm_num [legendre_pmm, Real.zero_rpow he]

lemma legendre_pmm_neg_one (μ : ℕ) (hμ : μ ≠ 0) : legendre_pmm μ (-1) = 0 := by
  have he : ((μ : ℝ) / 2) ≠ 0 :=
    div_ne_zero (Nat.cast_ne_zero.mpr hμ) two_ne_zero
  norm_num [legendre_pmm, Real.zero_rpow he]

lemma al_4_0_z : assoc_legendre 4 0 0 = 3 / 8 := by
  norm_num [assoc_legendre, legendre_pair, legendre_pmm_zero, double_factorial]

lemma al_4_1_z : assoc_legendre 4 1 0 = 0 := by
  norm_num [assoc_legendre, legendre_pair, legendre_pmm_zero, double_factorial]

lemma al_4_2_z : assoc_legendre 4 2 0 = -(15 / 2) := by
  norm_num [assoc_legendre, legendre_pair, legendre_pmm_zero, double_factorial]

lemma al_4_3_z : assoc_legendre 4 3 0 = 0 := by
  norm_num [assoc_legendre, legendre_pair, legendre_pmm_zero, double_factorial]

lemma al_4_4_z : assoc_legendre 4 4 0 = 105 := by
  norm_num [assoc_legendre, legendre_pmm_zero, double_factorial]

lemma al_6_0_z : assoc_legendre 6 0 0 = -(5 / 16) := by
  norm_num [assoc_legendre, legendre_pair, legendre_pmm_zero, double_factorial]

lemma al_6_1_z : assoc_legendre 6 1 0 = 0 := by
  norm_num [assoc_legendre, legendre_pair, legendre_pmm_zero, double_factorial]

lemma al_6_2_z : assoc_legendre 6 2 0 = 105 / 8 := by
  norm_num [assoc_legendre, legendre_pair, legendre_pmm_zero, double_factorial]

lemma al_6_3_z : assoc_legendre 6 3 0 = 0 := by
  norm_num [assoc_legendre, legendre_pair, legendre_pmm_zero, double_factorial]

lemma al_6_4_z : assoc_legendre 6 4 0 = -(945 / 2) := by
  norm_num [assoc_legendre, legendre_pair, legendre_pmm_zero, double_factorial]

lemma al_6_5_z : assoc_legendre 6 5 0 = 0 := by
  norm_num [assoc_legendre, legendre_pair, legendre_pmm_zero, double_factorial]

lemma al_6_6_z : assoc_legendre 6 6 0 = 10395 := by
  norm_num [assoc_legendre, legendre_pmm_zero, double_factorial]

lemma legendre_pair_one_eq_zero (μ : ℕ) (hμ : μ ≠ 0) :
    ∀ k, legendre_pair μ 1 k = (0, 0) := by
  intro k
  induction k with
  | zero => simp [legendre_pair, legendre_pmm_one μ hμ]
  | succ k ih => simp [legendre_pair, ih]

lemma legendre_pair_neg_one_eq_zero (μ : ℕ) (hμ : μ ≠ 0) :
    ∀ k, legendre_pair μ (-1) k = (0, 0) := by
  intro k
  induction k with
  | zero => simp [legendre_pair, legendre_pmm_neg_one μ hμ]
  | succ k ih => simp [legendre_pair, ih]

lemma al_one (l μ : ℕ) (hμ : μ ≠ 0) : assoc_legendre l μ 1 = 0 := by
  rw [assoc_legendre]
  rcases eq_or_ne l μ with h | h
  · rw [if_pos h, legendre_pmm_one μ hμ]
  · rw [if_neg h, legendre_pair_one_eq_zero μ hμ]

lemma al_neg_one (l μ : ℕ) (hμ : μ ≠ 0) : assoc_legendre l μ (-1) = 0 := by
  rw [assoc_legendre]
  rcases eq_or_ne l μ with h | h
  · rw [if_pos h, legendre_pmm_neg_one μ hμ]
  · rw [if_neg h, legendre_pair_neg_one_eq_zero μ hμ]

lemma al_4_0_one : assoc_legendre 4 0 1 = 1 := by
  norm_num [assoc_legendre, legendre_pair, legendre_pmm, Real.one_rpow,
    double_factorial]

lemma al_6_0_one : assoc_legendre 6 0 1 = 1 := by
  norm_num [assoc_legendre, legendre_pair, legendre_pmm, Real.one_rpow,
    double_factorial]

lemma al_4_0_neg_one : assoc_legendre 4 0 (-1) = 1 := by
  norm_num [assoc_legendre, legendre_pair, legendre_pmm, Real.one_rpow,
    double_factorial]

lemma al_6_0_neg_one : assoc_legendre 6 0 (-1) = 1 := by
  norm_num [assoc_legendre, legendre_pair, legendre_pmm, Real.one_rpow,
    double_factorial]

lemma cexp_phase_zero (m : ℤ) :
    Complex.exp (Complex.I * (m : ℂ) * ((0 : ℝ) : ℂ)) = 1 := by
  simp

lemma cexp_phase_pi (m : ℤ) :
    Complex.exp (Complex.I * (m : ℂ) * ((Real.pi : ℝ) : ℂ)) = (-1) ^ m := by
  rw [show Complex.I * (m : ℂ) * ((Real.pi : ℝ) : ℂ)
      = (m : ℂ) * ((Real.pi : ℝ) * Complex.I) by ring]
  rw [Complex.exp_int_mul, Complex.exp_pi_mul_I]

lemma cexp_phase_half_pi (m : ℤ) :
    Complex.exp (Complex.I * (m : ℂ) * ((Real.pi / 2 : ℝ) : ℂ)) = Complex.I ^ m := by
  have h : Complex.exp (((Real.pi / 2 : ℝ) : ℂ) * Complex.I) = Complex.I := by
    rw [Complex.exp_mul_I]
    push_cast
    rw [Complex.cos_pi_div_two, Complex.sin_pi_div_two]
    ring
  rw [show Complex.I * (m : ℂ) * ((Real.pi / 2 : ℝ) : ℂ)
      = (m : ℂ) * (((Real.pi / 2 : ℝ) : ℂ) * Complex.I) by ring]
  rw [Complex.exp_int_mul, h]

lemma cexp_phase_neg_half_pi (m : ℤ) :
    Complex.exp (Complex.I * (m : ℂ) * ((-(Real.pi / 2) : ℝ) : ℂ)) =
      (-Complex.I) ^ m := by
  have h : Complex.exp (((-(Real.pi / 2) : ℝ) : ℂ) * Complex.I) = -Complex.I := by
    rw [Complex.exp_mul_I]
    push_cast
    rw [Complex.cos_neg, Complex.sin_neg, Complex.cos_pi_div_two,
      Complex.sin_pi_div_two]
    ring
  rw [show Complex.I * (m : ℂ) * ((-(Real.pi / 2) : ℝ) : ℂ)
      = (m : ℂ) * (((-(Real.pi / 2) : ℝ) : ℂ) * Complex.I) by ring]
  rw [Complex.exp_int_mul, h]

lemma I_zp2 : Complex.I ^ (2 : ℤ) = -1 := by
  rw [show (2 : ℤ) = ((2 : ℕ) : ℤ) from rfl, zpow_natCast, Complex.I_sq]

lemma I_zp4 : Complex.I ^ (4 : ℤ) = 1 := by
  rw [show (4 : ℤ) = ((4 : ℕ) : ℤ) from rfl, zpow_natCast, Complex.I_pow_four]

lemma I_zp6 : Complex.I ^ (6 : ℤ) = -1 := by
  rw [show (6 : ℤ) = ((6 : ℕ) : ℤ) from rfl, zpow_natCast,
    show (6 : ℕ) = 2 * 3 from rfl, pow_mul, Complex.I_sq]
  norm_num

lemma I_zpn2 : Complex.I ^ (-2 : ℤ) = -1 := by
  rw [show (-2 : ℤ) = -((2 : ℕ) : ℤ) from rfl, zpow_neg, zpow_natCast, Complex.I_sq]
  norm_num

lemma I_zpn4 : Complex.I ^ (-4 : ℤ) = 1 := by
  rw [show (-4 : ℤ) = -((4 : ℕ) : ℤ) from rfl, zpow_neg, zpow_natCast,
    Complex.I_pow_four]
  norm_num

lemma I_zpn6 : Complex.I ^ (-6 : ℤ) = -1 := by
  rw [show (-6 : ℤ) = -((6 : ℕ) : ℤ) from rfl, zpow_neg, zpow_natCast,
    show (6 : ℕ) = 2 * 3 from rfl, pow_mul, Complex.I_sq]
  norm_num

lemma nI_zp2 : (-Complex.I) ^ (2 : ℤ) = -1 := by
  rw [show (2 : ℤ) = ((2 : ℕ) : ℤ) from rfl, zpow_natCast, neg_pow, Complex.I_sq]
  norm_num

lemma nI_zp4 : (-Complex.I) ^ (4 : ℤ) = 1 := by
  rw [show (4 : ℤ) = ((4 : ℕ) : ℤ) from rfl, zpow_natCast, neg_pow,
    Complex.I_pow_four]
  norm_num

lemma nI_zp6 : (-Complex.I) ^ (6 : ℤ) = -1 := by
  rw [show (6 : ℤ) = ((6 : ℕ) : ℤ) from rfl, zpow_natCast, neg_pow,
    show (6 : ℕ) = 2 * 3 from rfl, pow_mul, pow_mul, Complex.I_sq]
  norm_num

lemma nI_zpn2 : (-Complex.I) ^ (-2 : ℤ) = -1 := by
  rw [show (-2 : ℤ) = -((2 : ℕ) : ℤ) from rfl, zpow_neg, zpow_natCast, neg_pow,
    Complex.I_sq]
  norm_num

lemma nI_zpn4 : (-Complex.I) ^ (-4 : ℤ) = 1 := by
  rw [show (-4 : ℤ) = -((4 : ℕ) : ℤ) from rfl, zpow_neg, zpow_natCast, neg_pow,
    Complex.I_pow_four]
  norm_num

lemma nI_zpn6 : (-Complex.I) ^ (-6 : ℤ) = -1 := by
  rw [show (-6 : ℤ) = -((6 : ℕ) : ℤ) from rfl, zpow_neg, zpow_natCast, neg_pow,
    show (6 : ℕ) = 2 * 3 from rfl, pow_mul, pow_mul, Complex.I_sq]
  norm_num

lemma octa6_n6 :
    spherical_harmonic 6 (-6 : ℤ) (Real.pi / 2) 0 +
      (spherical_harmonic 6 (-6 : ℤ) (Real.pi / 2) Real.pi +
      (spherical_harmonic 6 (-6 : ℤ) (Real.pi / 2) (Real.pi / 2) +
      (spherical_harmonic 6 (-6 : ℤ) (Real.pi / 2) (-(Real.pi / 2)) +
      (spherical_harmonic 6 (-6 : ℤ) 0 0 +
      (spherical_harmonic 6 (-6 : ℤ) Real.pi 0 + 0)))))
      = (0 : ℂ) := by
  simp only [spherical_harmonic_def 6 (-6 : ℤ) (by decide), Int.natAbs_neg, Int.natAbs_ofNat,
    cexp_phase_zero, cexp_phase_pi, cexp_phase_half_pi, cexp_phase_neg_half_pi,
    Real.cos_pi_div_two, Real.cos_zero, Real.cos_pi]
  rw [I_zpn6, nI_zpn6]
  norm_num [Nat.factorial, al_6_6_z, al_one, al_neg_one]
  try ring

lemma octa6_n5 :
    spherical_harmonic 6 (-5 : ℤ) (Real.pi / 2) 0 +
      (spherical_harmonic 6 (-5 : ℤ) (Real.pi / 2) Real.pi +
      (spherical_harmonic 6 (-5 : ℤ) (Real.pi / 2) (Real.pi / 2) +
      (spherical_harmonic 6 (-5 : ℤ) (Real.pi / 2) (-(Real.pi / 2)) +
      (spherical_harmonic 6 (-5 : ℤ) 0 0 +
      (spherical_harmonic 6 (-5 : ℤ) Real.pi 0 + 0)))))
      = (0 : ℂ) := by
  simp only [spherical_harmonic_def 6 (-5 : ℤ) (by decide), Int.natAbs_neg, Int.natAbs_ofNat,
    cexp_phase_zero, cexp_phase_pi, cexp_phase_half_pi, cexp_phase_neg_half_pi,
    Real.cos_pi_div_two, Real.cos_zero, Real.cos_pi]
  norm_num [Nat.factorial, al_6_5_z, al_one, al_neg_one]
  try ring

lemma octa6_n4 :
    spherical_harmonic 6 (-4 : ℤ) (Real.pi / 2) 0 +
      (spherical_harmonic 6 (-4 : ℤ) (Real.pi / 2) Real.pi +
      (spherical_harmonic 6 (-4 : ℤ) (Real.pi / 2) (Real.pi / 2) +
      (spherical_harmonic 6 (-4 : ℤ) (Real.pi / 2) (-(Real.pi / 2)) +
      (spherical_harmonic 6 (-4 : ℤ) 0 0 +
      (spherical_harmonic 6 (-4 : ℤ) Real.pi 0 + 0)))))
      = ((-(1 / 960) * ylm_norm 6 4 : ℝ) : ℂ) := by
  simp only [spherical_harmonic_def 6 (-4 : ℤ) (by decide), Int.natAbs_neg, Int.natAbs_ofNat,
    cexp_phase_zero, cexp_phase_pi, cexp_phase_half_pi, cexp_phase_neg_half_pi,
    Real.cos_pi_div_two, Real.cos_zero, Real.cos_pi]
  rw [I_zpn4, nI_zpn4]
  norm_num [Nat.factorial, al_6_4_z, al_one, al_neg_one]
  try ring

lemma octa6_n3 :
    spherical_harmonic 6 (-3 : ℤ) (Real.pi / 2) 0 +
      (spherical_harmonic 6 (-3 : ℤ) (Real.pi / 2) Real.pi +
      (spherical_harmonic 6 (-3 : ℤ) (Real.pi / 2) (Real.pi / 2) +
      (spherical_harmonic 6 (-3 : ℤ) (Real.pi / 2) (-(Real.pi / 2)) +
      (spherical_harmonic 6 (-3 : ℤ) 0 0 +
      (spherical_harmonic 6 (-3 : ℤ) Real.pi 0 + 0)))))
      = (0 : ℂ) := by
  simp only [spherical_harmonic_def 6 (-3 : ℤ) (by decide), Int.natAbs_neg, Int.natAbs_ofNat,
    cexp_phase_zero, cexp_phase_pi, cexp_phase_half_pi, cexp_phase_neg_half_pi,
    Real.cos_pi_div_two, Real.cos_zero, Real.cos_pi]
  norm_num [Nat.factorial, al_6_3_z, al_one, al_neg_one]
  try ring

lemma octa6_n2 :
    spherical_harmonic 6 (-2 : ℤ) (Real.pi / 2) 0 +
      (spherical_harmonic 6 (-2 : ℤ) (Real.pi / 2) Real.pi +
      (spherical_harmonic 6 (-2 : ℤ) (Real.pi / 2) (Real.pi / 2) +
      (spherical_harmonic 6 (-2 : ℤ) (Real.pi / 2) (-(Real.pi / 2)) +
      (spherical_harmonic 6 (-2 : ℤ) 0 0 +
      (spherical_harmonic 6 (-2 : ℤ) Real.pi 0 + 0)))))
      = (0 : ℂ) := by
  simp only [spherical_harmonic_def 6 (-2 : ℤ) (by decide), Int.natAbs_neg, Int.natAbs_ofNat,
    cexp_phase_zero, cexp_phase_pi, cexp_phase_half_pi, cexp_phase_neg_half_pi,
    Real.cos_pi_div_two, Real.cos_zero, Real.cos_pi]
  rw [I_zpn2, nI_zpn2]
  norm_num [Nat.factorial, al_6_2_z, al_one, al_neg_one]
  try ring

lemma octa6_n1 :
    spherical_harmonic 6 (-1 : ℤ) (Real.pi / 2) 0 +
      (spherical_harmonic 6 (-1 : ℤ) (Real.pi / 2) Real.pi +
      (spherical_harmonic 6 (-1 : ℤ) (Real.pi / 2) (Real.pi / 2) +
      (spherical_harmonic 6 (-1 : ℤ) (Real.pi / 2) (-(Real.pi / 2)) +
      (spherical_harmonic 6 (-1 : ℤ) 0 0 +
      (spherical_harmonic 6 (-1 : ℤ) Real.pi 0 + 0)))))
      = (0 : ℂ) := by
  simp only [spherical_harmonic_def 6 (-1 : ℤ) (by decide), Int.natAbs_neg, Int.natAbs_ofNat,
    cexp_phase_zero, cexp_phase_pi, cexp_phase_half_pi, cexp_phase_neg_half_pi,
    Real.cos_pi_div_two, Real.cos_zero, Real.cos_pi]
  norm_num [Nat.factorial, al_6_1_z, al_one, al_neg_one]
  try ring

lemma octa6_m0 :
    spherical_harmonic 6 (0 : ℤ) (Real.pi / 2) 0 +
      (spherical_harmonic 6 (0 : ℤ) (Real.pi / 2) Real.pi +
      (spherical_harmonic 6 (0 : ℤ) (Real.pi / 2) (Real.pi / 2) +
      (spherical_harmonic 6 (0 : ℤ) (Real.pi / 2) (-(Real.pi / 2)) +
      (spherical_harmonic 6 (0 : ℤ) 0 0 +
      (spherical_harmonic 6 (0 : ℤ) Real.pi 0 + 0)))))
      = ((3 / 4 * ylm_norm 6 0 : ℝ) : ℂ) := by
  simp only [spherical_harmonic_def 6 (0 : ℤ) (by decide), Int.natAbs_neg, Int.natAbs_ofNat,
    cexp_phase_zero, cexp_phase_pi, cexp_phase_half_pi, cexp_phase_neg_half_pi,
    Real.cos_pi_div_two, Real.cos_zero, Real.cos_pi]
  norm_num [Nat.factorial, al_6_0_z, al_6_0_one, al_6_0_neg_one]
  try ring

lemma octa6_p1 :
    spherical_harmonic 6 (1 : ℤ) (Real.pi / 2) 0 +
      (spherical_harmonic 6 (1 : ℤ) (Real.pi / 2) Real.pi +
      (spherical_harmonic 6 (1 : ℤ) (Real.pi / 2) (Real.pi / 2) +
      (spherical_harmonic 6 (1 : ℤ) (Real.pi / 2) (-(Real.pi / 2)) +
      (spherical_harmonic 6 (1 : ℤ) 0 0 +
      (spherical_harmonic 6 (1 : ℤ) Real.pi 0 + 0)))))
      = (0 : ℂ) := by
  simp only [spherical_harmonic_def 6 (1 : ℤ) (by decide), Int.natAbs_neg, Int.natAbs_ofNat,
    cexp_phase_zero, cexp_phase_pi, cexp_phase_half_pi, cexp_phase_neg_half_pi,
    Real.cos_pi_div_two, Real.cos_zero, Real.cos_pi]
  norm_num [Nat.factorial, al_6_1_z, al_one, al_neg_one]
  try ring

lemma octa6_p2 :
    spherical_harmonic 6 (2 : ℤ) (Real.pi / 2) 0 +
      (spherical_harmonic 6 (2 : ℤ) (Real.pi / 2) Real.pi +
      (spherical_harmonic 6 (2 : ℤ) (Real.pi / 2) (Real.pi / 2) +
      (spherical_harmonic 6 (2 : ℤ) (Real.pi / 2) (-(Real.pi / 2)) +
      (spherical_harmonic 6 (2 : ℤ) 0 0 +
      (spherical_harmonic 6 (2 : ℤ) Real.pi 0 + 0)))))
      = (0 : ℂ) := by
  simp only [spherical_harmonic_def 6 (2 : ℤ) (by decide), Int.natAbs_neg, Int.natAbs_ofNat,
    cexp_phase_zero, cexp_phase_pi, cexp_phase_half_pi, cexp_phase_neg_half_pi,
    Real.cos_pi_div_two, Real.cos_zero, Real.cos_pi]
  rw [I_zp2, nI_zp2]
  norm_num [Nat.factorial, al_6_2_z, al_one, al_neg_one]
  try ring

lemma octa6_p3 :
    spherical_harmonic 6 (3 : ℤ) (Real.pi / 2) 0 +
      (spherical_harmonic 6 (3 : ℤ) (Real.pi / 2) Real.pi +
      (spherical_harmonic 6 (3 : ℤ) (Real.pi / 2) (Real.pi / 2) +
      (spherical_harmonic 6 (3 : ℤ) (Real.pi / 2) (-(Real.pi / 2)) +
      (spherical_harmonic 6 (3 : ℤ) 0 0 +
      (spherical_harmonic 6 (3 : ℤ) Real.pi 0 + 0)))))
      = (0 : ℂ) := by
  simp only [spherical_harmonic_def 6 (3 : ℤ) (by decide), Int.natAbs_neg, Int.natAbs_ofNat,
    cexp_phase_zero, cexp_phase_pi, cexp_phase_half_pi, cexp_phase_neg_half_pi,
    Real.cos_pi_div_two, Real.cos_zero, Real.cos_pi]
  norm_num [Nat.factorial, al_6_3_z, al_one, al_neg_one]
  try ring

lemma octa6_p4 :
    spherical_harmonic 6 (4 : ℤ) (Real.pi / 2) 0 +
      (spherical_harmonic 6 (4 : ℤ) (Real.pi / 2) Real.pi +
      (spherical_harmonic 6 (4 : ℤ) (Real.pi / 2) (Real.pi / 2) +
      (spherical_harmonic 6 (4 : ℤ) (Real.pi / 2) (-(Real.pi / 2)) +
      (spherical_harmonic 6 (4 : ℤ) 0 0 +
      (spherical_harmonic 6 (4 : ℤ) Real.pi 0 + 0)))))
      = ((-1890 * ylm_norm 6 4 : ℝ) : ℂ) := by
  simp only [spherical_harmonic_def 6 (4 : ℤ) (by decide), Int.natAbs_neg, Int.natAbs_ofNat,
    cexp_phase_zero, cexp_phase_pi, cexp_phase_half_pi, cexp_phase_neg_half_pi,
    Real.cos_pi_div_two, Real.cos_zero, Real.cos_pi]
  rw [I_zp4, nI_zp4]
  norm_num [Nat.factorial, al_6_4_z, al_one, al_neg_one]
  try ring

lemma octa6_p5 :
    spherical_harmonic 6 (5 : ℤ) (Real.pi / 2) 0 +
      (spherical_harmonic 6 (5 : ℤ) (Real.pi / 2) Real.pi +
      (spherical_harmonic 6 (5 : ℤ) (Real.pi / 2) (Real.pi / 2) +
      (spherical_harmonic 6 (5 : ℤ) (Real.pi / 2) (-(Real.pi / 2)) +
      (spherical_harmonic 6 (5 : ℤ) 0 0 +
      (spherical_harmonic 6 (5 : ℤ) Real.pi 0 + 0)))))
      = (0 : ℂ) := by
  simp only [spherical_harmonic_def 6 (5 : ℤ) (by decide), Int.natAbs_neg, Int.natAbs_ofNat,
    cexp_phase_zero, cexp_phase_pi, cexp_phase_half_pi, cexp_phase_neg_half_pi,
    Real.cos_pi_div_two, Real.cos_zero, Real.cos_pi]
  norm_num [Nat.factorial, al_6_5_z, al_one, al_neg_one]
  try ring

lemma octa6_p6 :
    spherical_harmonic 6 (6 : ℤ) (Real.pi / 2) 0 +
      (spherical_harmonic 6 (6 : ℤ) (Real.pi / 2) Real.pi +
      (spherical_harmonic 6 (6 : ℤ) (Real.pi / 2) (Real.pi / 2) +
      (spherical_harmonic 6 (6 : ℤ) (Real.pi / 2) (-(Real.pi / 2)) +
      (spherical_harmonic 6 (6 : ℤ) 0 0 +
      (spherical_harmonic 6 (6 : ℤ) Real.pi 0 + 0)))))
      = (0 : ℂ) := by
  simp only [spherical_harmonic_def 6 (6 : ℤ) (by decide), Int.natAbs_neg, Int.natAbs_ofNat,
    cexp_phase_zero, cexp_phase_pi, cexp_phase_half_pi, cexp_phase_neg_half_pi,
    Real.cos_pi_div_two, Real.cos_zero, Real.cos_pi]
  rw [I_zp6, nI_zp6]
  norm_num [Nat.factorial, al_6_6_z, al_one, al_neg_one]
  try ring

lemma octa4_n4 :
    spherical_harmonic 4 (-4 : ℤ) (Real.pi / 2) 0 +
      (spherical_harmonic 4 (-4 : ℤ) (Real.pi / 2) Real.pi +
      (spherical_harmonic 4 (-4 : ℤ) (Real.pi / 2) (Real.pi / 2) +
      (spherical_harmonic 4 (-4 : ℤ) (Real.pi / 2) (-(Real.pi / 2)) +
      (spherical_harmonic 4 (-4 : ℤ) 0 0 +
      (spherical_harmonic 4 (-4 : ℤ) Real.pi 0 + 0)))))
      = ((1 / 96 * ylm_norm 4 4 : ℝ) : ℂ) := by
  simp only [spherical_harmonic_def 4 (-4 : ℤ) (by decide), Int.natAbs_neg, Int.natAbs_ofNat,
    cexp_phase_zero, cexp_phase_pi, cexp_phase_half_pi, cexp_phase_neg_half_pi,
    Real.cos_pi_div_two, Real.cos_zero, Real.cos_pi]
  rw [I_zpn4, nI_zpn4]
  norm_num [Nat.factorial, al_4_4_z, al_one, al_neg_one]
  try ring

lemma octa4_n3 :
    spherical_harmonic 4 (-3 : ℤ) (Real.pi / 2) 0 +
      (spherical_harmonic 4 (-3 : ℤ) (Real.pi / 2) Real.pi +
      (spherical_harmonic 4 (-3 : ℤ) (Real.pi / 2) (Real.pi / 2) +
      (spherical_harmonic 4 (-3 : ℤ) (Real.pi / 2) (-(Real.pi / 2)) +
      (spherical_harmonic 4 (-3 : ℤ) 0 0 +
      (spherical_harmonic 4 (-3 : ℤ) Real.pi 0 + 0)))))
      = (0 : ℂ) := by
  simp only [spherical_harmonic_def 4 (-3 : ℤ) (by decide), Int.natAbs_neg, Int.natAbs_ofNat,
    cexp_phase_zero, cexp_phase_pi, cexp_phase_half_pi, cexp_phase_neg_half_pi,
    Real.cos_pi_div_two, Real.cos_zero, Real.cos_pi]
  norm_num [Nat.factorial, al_4_3_z, al_one, al_neg_one]
  try ring

lemma octa4_n2 :
    spherical_harmonic 4 (-2 : ℤ) (Real.pi / 2) 0 +
      (spherical_harmonic 4 (-2 : ℤ) (Real.pi / 2) Real.pi +
      (spherical_harmonic 4 (-2 : ℤ) (Real.pi / 2) (Real.pi / 2) +
      (spherical_harmonic 4 (-2 : ℤ) (Real.pi / 2) (-(Real.pi / 2)) +
      (spherical_harmonic 4 (-2 : ℤ) 0 0 +
      (spherical_harmonic 4 (-2 : ℤ) Real.pi 0 + 0)))))
      = (0 : ℂ) := by
  simp only [spherical_harmonic_def 4 (-2 : ℤ) (by decide), Int.natAbs_neg, Int.natAbs_ofNat,
    cexp_phase_zero, cexp_phase_pi, cexp_phase_half_pi, cexp_phase_neg_half_pi,
    Real.cos_pi_div_two, Real.cos_zero, Real.cos_pi]
  rw [I_zpn2, nI_zpn2]
  norm_num [Nat.factorial, al_4_2_z, al_one, al_neg_one]
  try ring

lemma octa4_n1 :
    spherical_harmonic 4 (-1 : ℤ) (Real.pi / 2) 0 +
      (spherical_harmonic 4 (-1 : ℤ) (Real.pi / 2) Real.pi +
      (spherical_harmonic 4 (-1 : ℤ) (Real.pi / 2) (Real.pi / 2) +
      (spherical_harmonic 4 (-1 : ℤ) (Real.pi / 2) (-(Real.pi / 2)) +
      (spherical_harmonic 4 (-1 : ℤ) 0 0 +
      (spherical_harmonic 4 (-1 : ℤ) Real.pi 0 + 0)))))
      = (0 : ℂ) := by
  simp only [spherical_harmonic_def 4 (-1 : ℤ) (by decide), Int.natAbs_neg, Int.natAbs_ofNat,
    cexp_phase_zero, cexp_phase_pi, cexp_phase_half_pi, cexp_phase_neg_half_pi,
    Real.cos_pi_div_two, Real.cos_zero, Real.cos_pi]
  norm_num [Nat.factorial, al_4_1_z, al_one, al_neg_one]
  try ring

lemma octa4_m0 :
    spherical_harmonic 4 (0 : ℤ) (Real.pi / 2) 0 +
      (spherical_harmonic 4 (0 : ℤ) (Real.pi / 2) Real.pi +
      (spherical_harmonic 4 (0 : ℤ) (Real.pi / 2) (Real.pi / 2) +
      (spherical_harmonic 4 (0 : ℤ) (Real.pi / 2) (-(Real.pi / 2)) +
      (spherical_harmonic 4 (0 : ℤ) 0 0 +
      (spherical_harmonic 4 (0 : ℤ) Real.pi 0 + 0)))))
      = ((7 / 2 * ylm_norm 4 0 : ℝ) : ℂ) := by
  simp only [spherical_harmonic_def 4 (0 : ℤ) (by decide), Int.natAbs_neg, Int.natAbs_ofNat,
    cexp_phase_zero, cexp_phase_pi, cexp_phase_half_pi, cexp_phase_neg_half_pi,
    Real.cos_pi_div_two, Real.cos_zero, Real.cos_pi]
  norm_num [Nat.factorial, al_4_0_z, al_4_0_one, al_4_0_neg_one]
  try ring

lemma octa4_p1 :
    spherical_harmonic 4 (1 : ℤ) (Real.pi / 2) 0 +
      (spherical_harmonic 4 (1 : ℤ) (Real.pi / 2) Real.pi +
      (spherical_harmonic 4 (1 : ℤ) (Real.pi / 2) (Real.pi / 2) +
      (spherical_harmonic 4 (1 : ℤ) (Real.pi / 2) (-(Real.pi / 2)) +
      (spherical_harmonic 4 (1 : ℤ) 0 0 +
      (spherical_harmonic 4 (1 : ℤ) Real.pi 0 + 0)))))
      = (0 : ℂ) := by
  simp only [spherical_harmonic_def 4 (1 : ℤ) (by decide), Int.natAbs_neg, Int.natAbs_ofNat,
    cexp_phase_zero, cexp_phase_pi, cexp_phase_half_pi, cexp_phase_neg_half_pi,
    Real.cos_pi_div_two, Real.cos_zero, Real.cos_pi]
  norm_num [Nat.factorial, al_4_1_z, al_one, al_neg_one]
  try ring

lemma octa4_p2 :
    spherical_harmonic 4 (2 : ℤ) (Real.pi / 2) 0 +
      (spherical_harmonic 4 (2 : ℤ) (Real.pi / 2) Real.pi +
      (spherical_harmonic 4 (2 : ℤ) (Real.pi / 2) (Real.pi / 2) +
      (spherical_harmonic 4 (2 : ℤ) (Real.pi / 2) (-(Real.pi / 2)) +
      (spherical_harmonic 4 (2 : ℤ) 0 0 +
      (spherical_harmonic 4 (2 : ℤ) Real.pi 0 + 0)))))
      = (0 : ℂ) := by
  simp only [spherical_harmonic_def 4 (2 : ℤ) (by decide), Int.natAbs_neg, Int.natAbs_ofNat,
    cexp_phase_zero, cexp_phase_pi, cexp_phase_half_pi, cexp_phase_neg_half_pi,
    Real.cos_pi_div_two, Real.cos_zero, Real.cos_pi]
  rw [I_zp2, nI_zp2]
  norm_num [Nat.factorial, al_4_2_z, al_one, al_neg_one]
  try ring

lemma octa4_p3 :
    spherical_harmonic 4 (3 : ℤ) (Real.pi / 2) 0 +
      (spherical_harmonic 4 (3 : ℤ) (Real.pi / 2) Real.pi +
      (spherical_harmonic 4 (3 : ℤ) (Real.pi / 2) (Real.pi / 2) +
      (spherical_harmonic 4 (3 : ℤ) (Real.pi / 2) (-(Real.pi / 2)) +
      (spherical_harmonic 4 (3 : ℤ) 0 0 +
      (spherical_harmonic 4 (3 : ℤ) Real.pi 0 + 0)))))
      = (0 : ℂ) := by
  simp only [spherical_harmonic_def 4 (3 : ℤ) (by decide), Int.natAbs_neg, Int.natAbs_ofNat,
    cexp_phase_zero, cexp_phase_pi, cexp_phase_half_pi, cexp_phase_neg_half_pi,
    Real.cos_pi_div_two, Real.cos_zero, Real.cos_pi]
  norm_num [Nat.factorial, al_4_3_z, al_one, al_neg_one]
  try ring

lemma octa4_p4 :
    spherical_harmonic 4 (4 : ℤ) (Real.pi / 2) 0 +
      (spherical_harmonic 4 (4 : ℤ) (Real.pi / 2) Real.pi +
      (spherical_harmonic 4 (4 : ℤ) (Real.pi / 2) (Real.pi / 2) +
      (spherical_harmonic 4 (4 : ℤ) (Real.pi / 2) (-(Real.pi / 2)) +
      (spherical_harmonic 4 (4 : ℤ) 0 0 +
      (spherical_harmonic 4 (4 : ℤ) Real.pi 0 + 0)))))
      = ((420 * ylm_norm 4 4 : ℝ) : ℂ) := by
  simp only [spherical_harmonic_def 4 (4 : ℤ) (by decide), Int.natAbs_neg, Int.natAbs_ofNat,
    cexp_phase_zero, cexp_phase_pi, cexp_phase_half_pi, cexp_phase_neg_half_pi,
    Real.cos_pi_div_two, Real.cos_zero, Real.cos_pi]
  rw [I_zp4, nI_zp4]
  norm_num [Nat.factorial, al_4_4_z, al_one, al_neg_one]
  try ring

lemma sq6_n6 :
    spherical_harmonic 6 (-6 : ℤ) (Real.pi / 2) 0 +
      (spherical_harmonic 6 (-6 : ℤ) (Real.pi / 2) Real.pi +
      (spherical_harmonic 6 (-6 : ℤ) (Real.pi / 2) (Real.pi / 2) +
      (spherical_harmonic 6 (-6 : ℤ) (Real.pi / 2) (-(Real.pi / 2)) + 0)))
      = (0 : ℂ) := by
  simp only [spherical_harmonic_def 6 (-6 : ℤ) (by decide), Int.natAbs_neg, Int.natAbs_ofNat,
    cexp_phase_zero, cexp_phase_pi, cexp_phase_half_pi, cexp_phase_neg_half_pi,
    Real.cos_pi_div_two, Real.cos_zero, Real.cos_pi]
  rw [I_zpn6, nI_zpn6]
  norm_num [Nat.factorial, al_6_6_z, al_one, al_neg_one]
  try ring

lemma sq6_n5 :
    spherical_harmonic 6 (-5 : ℤ) (Real.pi / 2) 0 +
      (spherical_harmonic 6 (-5 : ℤ) (Real.pi / 2) Real.pi +
      (spherical_harmonic 6 (-5 : ℤ) (Real.pi / 2) (Real.pi / 2) +
      (spherical_harmonic 6 (-5 : ℤ) (Real.pi / 2) (-(Real.pi / 2)) + 0)))
      = (0 : ℂ) := by
  simp only [spherical_harmonic_def 6 (-5 : ℤ) (by decide), Int.natAbs_neg, Int.natAbs_ofNat,
    cexp_phase_zero, cexp_phase_pi, cexp_phase_half_pi, cexp_phase_neg_half_pi,
    Real.cos_pi_div_two, Real.cos_zero, Real.cos_pi]
  norm_num [Nat.factorial, al_6_5_z, al_one, al_neg_one]
  try ring

lemma sq6_n4 :
    spherical_harmonic 6 (-4 : ℤ) (Real.pi / 2) 0 +
      (spherical_harmonic 6 (-4 : ℤ) (Real.pi / 2) Real.pi +
      (spherical_harmonic 6 (-4 : ℤ) (Real.pi / 2) (Real.pi / 2) +
      (spherical_harmonic 6 (-4 : ℤ) (Real.pi / 2) (-(Real.pi / 2)) + 0)))
      = ((-(1 / 960) * ylm_norm 6 4 : ℝ) : ℂ) := by
  simp only [spherical_harmonic_def 6 (-4 : ℤ) (by decide), Int.natAbs_neg, Int.natAbs_ofNat,
    cexp_phase_zero, cexp_phase_pi, cexp_phase_half_pi, cexp_phase_neg_half_pi,
    Real.cos_pi_div_two, Real.cos_zero, Real.cos_pi]
  rw [I_zpn4, nI_zpn4]
  norm_num [Nat.factorial, al_6_4_z, al_one, al_neg_one]
  try ring

lemma sq6_n3 :
    spherical_harmonic 6 (-3 : ℤ) (Real.pi / 2) 0 +
      (spherical_harmonic 6 (-3 : ℤ) (Real.pi / 2) Real.pi +
      (spherical_harmonic 6 (-3 : ℤ) (Real.pi / 2) (Real.pi / 2) +
      (spherical_harmonic 6 (-3 : ℤ) (Real.pi / 2) (-(Real.pi / 2)) + 0)))
      = (0 : ℂ) := by
  simp only [spherical_harmonic_def 6 (-3 : ℤ) (by decide), Int.natAbs_neg, Int.natAbs_ofNat,
    cexp_phase_zero, cexp_phase_pi, cexp_phase_half_pi, cexp_phase_neg_half_pi,
    Real.cos_pi_div_two, Real.cos_zero, Real.cos_pi]
  norm_num [Nat.factorial, al_6_3_z, al_one, al_neg_one]
  try ring

lemma sq6_n2 :
    spherical_harmonic 6 (-2 : ℤ) (Real.pi / 2) 0 +
      (spherical_harmonic 6 (-2 : ℤ) (Real.pi / 2) Real.pi +
      (spherical_harmonic 6 (-2 : ℤ) (Real.pi / 2) (Real.pi / 2) +
      (spherical_harmonic 6 (-2 : ℤ) (Real.pi / 2) (-(Real.pi / 2)) + 0)))
      = (0 : ℂ) := by
  simp only [spherical_harmonic_def 6 (-2 : ℤ) (by decide), Int.natAbs_neg, Int.natAbs_ofNat,
    cexp_phase_zero, cexp_phase_pi, cexp_phase_half_pi, cexp_phase_neg_half_pi,
    Real.cos_pi_div_two, Real.cos_zero, Real.cos_pi]
  rw [I_zpn2, nI_zpn2]
  norm_num [Nat.factorial, al_6_2_z, al_one, al_neg_one]
  try ring

lemma sq6_n1 :
    spherical_harmonic 6 (-1 : ℤ) (Real.pi / 2) 0 +
      (spherical_harmonic 6 (-1 : ℤ) (Real.pi / 2) Real.pi +
      (spherical_harmonic 6 (-1 : ℤ) (Real.pi / 2) (Real.pi / 2) +
      (spherical_harmonic 6 (-1 : ℤ) (Real.pi / 2) (-(Real.pi / 2)) + 0)))
      = (0 : ℂ) := by
  simp only [spherical_harmonic_def 6 (-1 : ℤ) (by decide), Int.natAbs_neg, Int.natAbs_ofNat,
    cexp_phase_zero, cexp_phase_pi, cexp_phase_half_pi, cexp_phase_neg_half_pi,
    Real.cos_pi_div_two, Real.cos_zero, Real.cos_pi]
  norm_num [Nat.factorial, al_6_1_z, al_one, al_neg_one]
  try ring

lemma sq6_m0 :
    spherical_harmonic 6 (0 : ℤ) (Real.pi / 2) 0 +
      (spherical_harmonic 6 (0 : ℤ) (Real.pi / 2) Real.pi +
      (spherical_harmonic 6 (0 : ℤ) (Real.pi / 2) (Real.pi / 2) +
      (spherical_harmonic 6 (0 : ℤ) (Real.pi / 2) (-(Real.pi / 2)) + 0)))
      = ((-(5 / 4) * ylm_norm 6 0 : ℝ) : ℂ) := by
  simp only [spherical_harmonic_def 6 (0 : ℤ) (by decide), Int.natAbs_neg, Int.natAbs_ofNat,
    cexp_phase_zero, cexp_phase_pi, cexp_phase_half_pi, cexp_phase_neg_half_pi,
    Real.cos_pi_div_two, Real.cos_zero, Real.cos_pi]
  norm_num [Nat.factorial, al_6_0_z]
  try ring

lemma sq6_p1 :
    spherical_harmonic 6 (1 : ℤ) (Real.pi / 2) 0 +
      (spherical_harmonic 6 (1 : ℤ) (Real.pi / 2) Real.pi +
      (spherical_harmonic 6 (1 : ℤ) (Real.pi / 2) (Real.pi / 2) +
      (spherical_harmonic 6 (1 : ℤ) (Real.pi / 2) (-(Real.pi / 2)) + 0)))
      = (0 : ℂ) := by
  simp only [spherical_harmonic_def 6 (1 : ℤ) (by decide), Int.natAbs_neg, Int.natAbs_ofNat,
    cexp_phase_zero, cexp_phase_pi, cexp_phase_half_pi, cexp_phase_neg_half_pi,
    Real.cos_pi_div_two, Real.cos_zero, Real.cos_pi]
  norm_num [Nat.factorial, al_6_1_z, al_one, al_neg_one]
  try ring

lemma sq6_p2 :
    spherical_harmonic 6 (2 : ℤ) (Real.pi / 2) 0 +
      (spherical_harmonic 6 (2 : ℤ) (Real.pi / 2) Real.pi +
      (spherical_harmonic 6 (2 : ℤ) (Real.pi / 2) (Real.pi / 2) +
      (spherical_harmonic 6 (2 : ℤ) (Real.pi / 2) (-(Real.pi / 2)) + 0)))
      = (0 : ℂ) := by
  simp only [spherical_harmonic_def 6 (2 : ℤ) (by decide), Int.natAbs_neg, Int.natAbs_ofNat,
    cexp_phase_zero, cexp_phase_pi, cexp_phase_half_pi, cexp_phase_neg_half_pi,
    Real.cos_pi_div_two, Real.cos_zero, Real.cos_pi]
  rw [I_zp2, nI_zp2]
  norm_num [Nat.factorial, al_6_2_z, al_one, al_neg_one]
  try ring

lemma sq6_p3 :
    spherical_harmonic 6 (3 : ℤ) (Real.pi / 2) 0 +
      (spherical_harmonic 6 (3 : ℤ) (Real.pi / 2) Real.pi +
      (spherical_harmonic 6 (3 : ℤ) (Real.pi / 2) (Real.pi / 2) +
      (spherical_harmonic 6 (3 : ℤ) (Real.pi / 2) (-(Real.pi / 2)) + 0)))
      = (0 : ℂ) := by
  simp only [spherical_harmonic_def 6 (3 : ℤ) (by decide), Int.natAbs_neg, Int.natAbs_ofNat,
    cexp_phase_zero, cexp_phase_pi, cexp_phase_half_pi, cexp_phase_neg_half_pi,
    Real.cos_pi_div_two, Real.cos_zero, Real.cos_pi]
  norm_num [Nat.factorial, al_6_3_z, al_one, al_neg_one]
  try ring

lemma sq6_p4 :
    spherical_harmonic 6 (4 : ℤ) (Real.pi / 2) 0 +
      (spherical_harmonic 6 (4 : ℤ) (Real.pi / 2) Real.pi +
      (spherical_harmonic 6 (4 : ℤ) (Real.pi / 2) (Real.pi / 2) +
      (spherical_harmonic 6 (4 : ℤ) (Real.pi / 2) (-(Real.pi / 2)) + 0)))
      = ((-1890 * ylm_norm 6 4 : ℝ) : ℂ) := by
  simp only [spherical_harmonic_def 6 (4 : ℤ) (by decide), Int.natAbs_neg, Int.natAbs_ofNat,
    cexp_phase_zero, cexp_phase_pi, cexp_phase_half_pi, cexp_phase_neg_half_pi,
    Real.cos_pi_div_two, Real.cos_zero, Real.cos_pi]
  rw [I_zp4, nI_zp4]
  norm_num [Nat.factorial, al_6_4_z, al_one, al_neg_one]
  try ring

lemma sq6_p5 :
    spherical_harmonic 6 (5 : ℤ) (Real.pi / 2) 0 +
      (spherical_harmonic 6 (5 : ℤ) (Real.pi / 2) Real.pi +
      (spherical_harmonic 6 (5 : ℤ) (Real.pi / 2) (Real.pi / 2) +
      (spherical_harmonic 6 (5 : ℤ) (Real.pi / 2) (-(Real.pi / 2)) + 0)))
      = (0 : ℂ) := by
  simp only [spherical_harmonic_def 6 (5 : ℤ) (by decide), Int.natAbs_neg, Int.natAbs_ofNat,
    cexp_phase_zero, cexp_phase_pi, cexp_phase_half_pi, cexp_phase_neg_half_pi,
    Real.cos_pi_div_two, Real.cos_zero, Real.cos_pi]
  norm_num [Nat.factorial, al_6_5_z, al_one, al_neg_one]
  try ring

lemma sq6_p6 :
    spherical_harmonic 6 (6 : ℤ) (Real.pi / 2) 0 +
      (spherical_harmonic 6 (6 : ℤ) (Real.pi / 2) Real.pi +
      (spherical_harmonic 6 (6 : ℤ) (Real.pi / 2) (Real.pi / 2) +
      (spherical_harmonic 6 (6 : ℤ) (Real.pi / 2) (-(Real.pi / 2)) + 0)))
      = (0 : ℂ) := by
  simp only [spherical_harmonic_def 6 (6 : ℤ) (by decide), Int.natAbs_neg, Int.natAbs_ofNat,
    cexp_phase_zero, cexp_phase_pi, cexp_phase_half_pi, cexp_phase_neg_half_pi,
    Real.cos_pi_div_two, Real.cos_zero, Real.cos_pi]
  rw [I_zp6, nI_zp6]
  norm_num [Nat.factorial, al_6_6_z, al_one, al_neg_one]
  try ring

lemma ylm_norm_6_0_sq : ylm_norm 6 0 ^ 2 = 13 / (4 * Real.pi) := by
  rw [ylm_norm, Real.sq_sqrt (by positivity)]
  norm_num [Nat.factorial]

lemma ylm_norm_6_4_sq : ylm_norm 6 4 ^ 2 = 13 / (4 * Real.pi) / 1814400 := by
  rw [ylm_norm, Real.sq_sqrt (by positivity)]
  norm_num [Nat.factorial]
  ring

lemma ylm_norm_4_0_sq : ylm_norm 4 0 ^ 2 = 9 / (4 * Real.pi) := by
  rw [ylm_norm, Real.sq_sqrt (by positivity)]
  norm_num [Nat.factorial]

lemma ylm_norm_4_4_sq : ylm_norm 4 4 ^ 2 = 9 / (4 * Real.pi) / 40320 := by
  rw [ylm_norm, Real.sq_sqrt (by positivity)]
  norm_num [Nat.factorial]

lemma calc_q_local_octa6 (d cutoff : ℝ) (h1 : 0.1 < d) (h2 : d < cutoff) :
    calc_q_local (0, 0, 0)
      [(d, 0, 0), (-d, 0, 0), (0, d, 0), (0, -d, 0), (0, 0, d), (0, 0, -d)]
      ["Pt", "Pt", "Pt", "Pt", "Pt", "Pt"] cutoff 6 true
    = Real.sqrt (81 / 1152 + 1 / 60197437440000) := by
  have hd0 : (0 : ℝ) < d := by linarith
  have hdne : d ≠ 0 := ne_of_gt hd0
  have hnd : -d < 0 := neg_lt_zero.mpr hd0
  have hpi : Real.pi ≠ 0 := Real.pi_ne_zero
  have hsel : select_neighbors
      [(d, 0, 0), (-d, 0, 0), (0, d, 0), (0, -d, 0), (0, 0, d), (0, 0, -d)]
      ["Pt", "Pt", "Pt", "Pt", "Pt", "Pt"] true
      = [(d, 0, 0), (-d, 0, 0), (0, d, 0), (0, -d, 0), (0, 0, d), (0, 0, -d)] := by
    simp [select_neighbors]
  have hpairs :
      (([((d : ℝ), (0 : ℝ), (0 : ℝ)), (-d, 0, 0), (0, d, 0), (0, -d, 0),
          (0, 0, d), (0, 0, -d)].map (fun pos =>
        let v := vector_sub pos ((0 : ℝ), (0 : ℝ), (0 : ℝ))
        (v, vector_norm v))).filter
        (fun vd => decide ((0.1 : ℝ) < vd.2) && decide (vd.2 < cutoff)))
      = [(((d : ℝ), (0 : ℝ), (0 : ℝ)), d), ((-d, 0, 0), d), ((0, d, 0), d),
         ((0, -d, 0), d), ((0, 0, d), d), ((0, 0, -d), d)] := by
    simp [vector_sub, vector_norm, Real.sqrt_mul_self hd0.le,
      decide_eq_true h1, decide_eq_true h2]
  have hc0 : clip (0 / d) (-1) 1 = 0 := by
    rw [zero_div]; norm_num [clip]
  have hcp : clip (d / d) (-1) 1 = 1 := by
    rw [div_self hdne]; norm_num [clip]
  have hcm : clip (-d / d) (-1) 1 = -1 := by
    rw [neg_div, div_self hdne]; norm_num [clip]
  have ha1 : atan2 0 d = 0 := by
    simp [atan2, if_pos hd0]
  have ha2 : atan2 0 (-d) = Real.pi := by
    rw [atan2, if_neg (by push_neg; linarith), if_pos hnd, if_pos le_rfl,
      zero_div, Real.arctan_zero, zero_add]
  have ha3 : atan2 d 0 = Real.pi / 2 := by
    rw [atan2, if_neg (lt_irrefl 0), if_neg (lt_irrefl 0), if_pos hd0]
  have ha4 : atan2 (-d) 0 = -(Real.pi / 2) := by
    rw [atan2, if_neg (lt_irrefl 0), if_neg (lt_irrefl 0),
      if_neg (not_lt.mpr hnd.le), if_pos hnd]
  have ha5 : atan2 0 0 = 0 := by
    rw [atan2, if_neg (lt_irrefl 0), if_neg (lt_irrefl 0),
      if_neg (lt_irrefl 0), if_neg (lt_irrefl 0)]
  unfold calc_q_local
  rw [hsel]
  simp only [List.isEmpty_cons, Bool.false_eq_true, if_false]
  rw [hpairs]
  simp only [List.length_cons, List.length_nil]
  norm_num only []
  simp only [List.map_cons, List.map_nil, hc0, hcp, hcm, ha1, ha2, ha3, ha4, ha5,
    Real.arccos_zero, Real.arccos_one, Real.arccos_neg_one]
  simp only [List.range_succ, List.range_zero, List.map_append, List.map_cons,
    List.map_nil, List.sum_append, List.sum_cons, List.sum_nil, if_false]
  norm_num only []
  rw [octa6_n6, octa6_n5, octa6_n4, octa6_n3, octa6_n2, octa6_n1, octa6_m0,
    octa6_p1, octa6_p2, octa6_p3, octa6_p4, octa6_p5, octa6_p6]
  simp only [zero_div, map_zero, map_div₀, Complex.abs_ofReal, Complex.abs_ofNat,
    div_pow, sq_abs, mul_pow, ylm_norm_6_0_sq, ylm_norm_6_4_sq,
    zero_pow (by norm_num : (2 : ℕ) ≠ 0), add_zero, zero_add]
  congr 1
  field_simp
  ring

lemma calc_q_local_octa4 (d cutoff : ℝ) (h1 : 0.1 < d) (h2 : d < cutoff) :
    calc_q_local (0, 0, 0)
      [(d, 0, 0), (-d, 0, 0), (0, d, 0), (0, -d, 0), (0, 0, d), (0, 0, -d)]
      ["Pt", "Pt", "Pt", "Pt", "Pt", "Pt"] cutoff 4 true
    = Real.sqrt (133 / 288 + 1 / 13377208320) := by
  have hd0 : (0 : ℝ) < d := by linarith
  have hdne : d ≠ 0 := ne_of_gt hd0
  have hnd : -d < 0 := neg_lt_zero.mpr hd0
  have hpi : Real.pi ≠ 0 := Real.pi_ne_zero
  have hsel : select_neighbors
      [(d, 0, 0), (-d, 0, 0), (0, d, 0), (0, -d, 0), (0, 0, d), (0, 0, -d)]
      ["Pt", "Pt", "Pt", "Pt", "Pt", "Pt"] true
      = [(d, 0, 0), (-d, 0, 0), (0, d, 0), (0, -d, 0), (0, 0, d), (0, 0, -d)] := by
    simp [select_neighbors]
  have hpairs :
      (([((d : ℝ), (0 : ℝ), (0 : ℝ)), (-d, 0, 0), (0, d, 0), (0, -d, 0),
          (0, 0, d), (0, 0, -d)].map (fun pos =>
        let v := vector_sub pos ((0 : ℝ), (0 : ℝ), (0 : ℝ))
        (v, vector_norm v))).filter
        (fun vd => decide ((0.1 : ℝ) < vd.2) && decide (vd.2 < cutoff)))
      = [(((d : ℝ), (0 : ℝ), (0 : ℝ)), d), ((-d, 0, 0), d), ((0, d, 0), d),
         ((0, -d, 0), d), ((0, 0, d), d), ((0, 0, -d), d)] := by
    simp [vector_sub, vector_norm, Real.sqrt_mul_self hd0.le,
      decide_eq_true h1, decide_eq_true h2]
  have hc0 : clip (0 / d) (-1) 1 = 0 := by
    rw [zero_div]; norm_num [clip]
  have hcp : clip (d / d) (-1) 1 = 1 := by
    rw [div_self hdne]; norm_num [clip]
  have hcm : clip (-d / d) (-1) 1 = -1 := by
    rw [neg_div, div_self hdne]; norm_num [clip]
  have ha1 : atan2 0 d = 0 := by
    simp [atan2, if_pos hd0]
  have ha2 : atan2 0 (-d) = Real.pi := by
    rw [atan2, if_neg (by push_neg; linarith), if_pos hnd, if_pos le_rfl,
      zero_div, Real.arctan_zero, zero_add]
  have ha3 : atan2 d 0 = Real.pi / 2 := by
    rw [atan2, if_neg (lt_irrefl 0), if_neg (lt_irrefl 0), if_pos hd0]
  have ha4 : atan2 (-d) 0 = -(Real.pi / 2) := by
    rw [atan2, if_neg (lt_irrefl 0), if_neg (lt_irrefl 0),
      if_neg (not_lt.mpr hnd.le), if_pos hnd]
  have ha5 : atan2 0 0 = 0 := by
    rw [atan2, if_neg (lt_irrefl 0), if_neg (lt_irrefl 0),
      if_neg (lt_irrefl 0), if_neg (lt_irrefl 0)]
  unfold calc_q_local
  rw [hsel]
  simp only [List.isEmpty_cons, Bool.false_eq_true, if_false]
  rw [hpairs]
  simp only [List.length_cons, List.length_nil]
  norm_num only []
  simp only [List.map_cons, List.map_nil, hc0, hcp, hcm, ha1, ha2, ha3, ha4, ha5,
    Real.arccos_zero, Real.arccos_one, Real.arccos_neg_one]
  simp only [List.range_succ, List.range_zero, List.map_append, List.map_cons,
    List.map_nil, List.sum_append, List.sum_cons, List.sum_nil, if_false]
  norm_num only []
  rw [octa4_n4, octa4_n3, octa4_n2, octa4_n1, octa4_m0,
    octa4_p1, octa4_p2, octa4_p3, octa4_p4]
  simp only [zero_div, map_zero, map_div₀, Complex.abs_ofReal, Complex.abs_ofNat,
    div_pow, sq_abs, mul_pow, ylm_norm_4_0_sq, ylm_norm_4_4_sq,
    zero_pow (by norm_num : (2 : ℕ) ≠ 0), add_zero, zero_add]
  congr 1
  field_simp
  ring

lemma calc_q6_sq_center :
    calc_q_local (0, 0, 0)
      [((0 : ℝ), (0 : ℝ), (0 : ℝ)), (1, 0, 0), (-1, 0, 0), (0, 1, 0), (0, -1, 0)]
      ["Pt", "Pt", "Pt", "Pt", "Pt"] 1.5 6 true
    = Real.sqrt (113 / 512 + 1 / 26754416640000) := by
  have hsel : select_neighbors
      [((0 : ℝ), (0 : ℝ), (0 : ℝ)), (1, 0, 0), (-1, 0, 0), (0, 1, 0), (0, -1, 0)]
      ["Pt", "Pt", "Pt", "Pt", "Pt"] true
      = [((0 : ℝ), (0 : ℝ), (0 : ℝ)), (1, 0, 0), (-1, 0, 0), (0, 1, 0), (0, -1, 0)] := by
    simp [select_neighbors]
  have hpairs :
      (([((0 : ℝ), (0 : ℝ), (0 : ℝ)), (1, 0, 0), (-1, 0, 0), (0, 1, 0),
          (0, -1, 0)].map (fun pos =>
        let v := vector_sub pos ((0 : ℝ), (0 : ℝ), (0 : ℝ))
        (v, vector_norm v))).filter
        (fun vd => decide ((0.1 : ℝ) < vd.2) && decide (vd.2 < (1.5 : ℝ))))
      = [((((1 : ℝ), (0 : ℝ), (0 : ℝ)) : Vec3), (1 : ℝ)), ((-1, 0, 0), 1),
         ((0, 1, 0), 1), ((0, -1, 0), 1)] := by
    simp [vector_sub, vector_norm, Real.sqrt_zero, Real.sqrt_one,
      decide_eq_false (by norm_num : ¬ ((0.1 : ℝ) < 0)),
      decide_eq_true (by norm_num : (0.1 : ℝ) < 1),
      decide_eq_true (by norm_num : (1 : ℝ) < 1.5)]
  have hc0 : clip ((0 : ℝ) / 1) (-1) 1 = 0 := by norm_num [clip]
  have ha1 : atan2 (0 : ℝ) 1 = 0 := by norm_num [atan2, Real.arctan_zero]
  have ha2 : atan2 (0 : ℝ) (-1) = Real.pi := by
    norm_num [atan2, Real.arctan_zero]
  have ha3 : atan2 (1 : ℝ) 0 = Real.pi / 2 := by norm_num [atan2]
  have ha4 : atan2 (-1 : ℝ) 0 = -(Real.pi / 2) := by norm_num [atan2]
  unfold calc_q_local
  rw [hsel]
  simp only [List.isEmpty_cons, Bool.false_eq_true, if_false]
  rw [hpairs]
  simp only [List.length_cons, List.length_nil]
  norm_num only []
  simp only [List.map_cons, List.map_nil, hc0, ha1, ha2, ha3, ha4,
    Real.arccos_zero]
  simp only [List.range_succ, List.range_zero, List.map_append, List.map_cons,
    List.map_nil, List.sum_append, List.sum_cons, List.sum_nil, if_false]
  norm_num only []
  rw [sq6_n6, sq6_n5, sq6_n4, sq6_n3, sq6_n2, sq6_n1, sq6_m0,
    sq6_p1, sq6_p2, sq6_p3, sq6_p4, sq6_p5, sq6_p6]
  simp only [zero_div, map_zero, map_div₀, Complex.abs_ofReal, Complex.abs_ofNat,
    div_pow, sq_abs, mul_pow, ylm_norm_6_0_sq, ylm_norm_6_4_sq,
    zero_pow (by norm_num : (2 : ℕ) ≠ 0), add_zero, zero_add]
  congr 1
  field_simp
  ring

lemma select_neighbors_sublist (positions : List Vec3) (elements : List String)
    (metalOnly : Bool) :
    (select_neighbors positions elements metalOnly).Sublist positions := by
  cases metalOnly with
  | false => simp [select_neighbors]
  | true =>
    simp only [select_neighbors, if_pos]
    induction positions generalizing elements with
    | nil => simp
    | cons p ps ih =>
      cases elements with
      | nil => simp
      | cons e es =>
        simp only [List.zip_cons_cons, List.filter_cons]
        by_cases hc : (e == "Pt" || e == "Sn") = true
        · rw [if_pos hc]
          simpa using List.Sublist.cons₂ p (ih es)
        · rw [if_neg hc]
          exact List.Sublist.cons p (ih es)

lemma calc_q_local_lt_four (centralPos : Vec3) (positions : List Vec3)
    (elements : List String) (cutoff : ℝ) (l : ℕ) (metalOnly : Bool)
    (h : qualifying_count centralPos positions cutoff < 4) :
    calc_q_local centralPos positions elements cutoff l metalOnly = 0 := by
  unfold calc_q_local
  by_cases he : (select_neighbors positions elements metalOnly).isEmpty
  · rw [if_pos he]
  · rw [if_neg he]
    have hsub := select_neighbors_sublist positions elements metalOnly
    have hlen :
        (((select_neighbors positions elements metalOnly).map (fun pos =>
            let v := vector_sub pos centralPos
            (v, vector_norm v))).filter
            (fun vd => decide ((0.1 : ℝ) < vd.2) && decide (vd.2 < cutoff))).length
          ≤ qualifying_count centralPos positions cutoff := by
      rw [qualifying_count, ← List.countP_eq_length_filter,
        ← List.countP_eq_length_filter, List.countP_map, List.countP_map]
      exact List.Sublist.countP_le _ hsub
    rw [if_pos (lt_of_le_of_lt hlen h)]

lemma sh_4_4_eq : spherical_harmonic 4 (4 : ℤ) (Real.pi / 2) 0
    = ((ylm_norm 4 4 * 105 : ℝ) : ℂ) := by
  rw [spherical_harmonic_def 4 (4 : ℤ) (by decide)]
  simp only [Int.natAbs_ofNat, cexp_phase_zero, Real.cos_pi_div_two]
  norm_num [al_4_4_z]

lemma sh_4_n4_eq : spherical_harmonic 4 (-4 : ℤ) (Real.pi / 2) 0
    = ((ylm_norm 4 4 * (105 / 40320) : ℝ) : ℂ) := by
  rw [spherical_harmonic_def 4 (-4 : ℤ) (by decide)]
  simp only [Int.natAbs_neg, Int.natAbs_ofNat, cexp_phase_zero, Real.cos_pi_div_two]
  norm_num [Nat.factorial, al_4_4_z]

/-- Claim C1: the spherical harmonic of the source is NOT the standard
Y_l^m for negative m: at l = 4, m = -4, theta = pi/2, phi = 0 the code
output carries an extra factor (l-|m|)!/(l+|m|)! = 1/40320 relative to the
Condon-Shortley conjugation identity
Y_l^(-m) = (-1)^m conj(Y_l^m), because the source applies the
factorial-ratio identity to P and then also normalizes with |m|.  The first
conjunct exhibits the erroneous factor, the second refutes the identity
claimed by the specification. -/
theorem spherical_harmonic_neg_m_bug :
    spherical_harmonic 4 (-4 : ℤ) (Real.pi / 2) 0
      = ((1 / 40320 : ℝ) : ℂ) *
        ((-1 : ℂ) ^ (4 : ℕ) *
          (starRingEnd ℂ) (spherical_harmonic 4 (4 : ℤ) (Real.pi / 2) 0)) ∧
    spherical_harmonic 4 (-4 : ℤ) (Real.pi / 2) 0
      ≠ (-1 : ℂ) ^ (4 : ℕ) *
          (starRingEnd ℂ) (spherical_harmonic 4 (4 : ℤ) (Real.pi / 2) 0) := by
  have hN : 0 < ylm_norm 4 4 := Real.sqrt_pos.mpr (by positivity)
  rw [sh_4_4_eq, sh_4_n4_eq, Complex.conj_ofReal]
  constructor
  · push_cast
    ring
  · rw [show ((-1 : ℂ)) ^ (4 : ℕ) = 1 by norm_num, one_mul, ne_eq,
      Complex.ofReal_inj]
    intro h
    linarith

/-- Claim C2, counterexample: feeding the six octahedral neighbors at
distance 1 (inside the 3.5 cutoff) to calc_q_local does NOT reproduce the
claimed reference values: the code returns about 0.2652 for l = 6 (claimed
0.745) and about 0.6796 for l = 4 (claimed 0.763), both outside the 1e-2
tolerance. -/
theorem octa_reference_values_cex :
    ¬ (|calc_q_local (0, 0, 0)
          [((1 : ℝ), (0 : ℝ), (0 : ℝ)), (-1, 0, 0), (0, 1, 0), (0, -1, 0),
           (0, 0, 1), (0, 0, -1)]
          ["Pt", "Pt", "Pt", "Pt", "Pt", "Pt"] 3.5 6 true - 0.745| ≤ 1e-2) ∧
    ¬ (|calc_q_local (0, 0, 0)
          [((1 : ℝ), (0 : ℝ), (0 : ℝ)), (-1, 0, 0), (0, 1, 0), (0, -1, 0),
           (0, 0, 1), (0, 0, -1)]
          ["Pt", "Pt", "Pt", "Pt", "Pt", "Pt"] 3.5 4 true - 0.763| ≤ 1e-2) := by
  have h6 := calc_q_local_octa6 1 3.5 (by norm_num) (by norm_num)
  have h4 := calc_q_local_octa4 1 3.5 (by norm_num) (by norm_num)
  rw [h6, h4]
  have b6 : Real.sqrt (81 / 1152 + 1 / 60197437440000) < 0.3 :=
    (Real.sqrt_lt' (by norm_num)).mpr (by norm_num)
  have b4 : Real.sqrt (133 / 288 + 1 / 13377208320) < 0.69 :=
    (Real.sqrt_lt' (by norm_num)).mpr (by norm_num)
  constructor
  · intro hc
    rw [abs_le] at hc
    have := hc.1
    linarith
  · intro hc
    rw [abs_le] at hc
    have := hc.1
    linarith

/-- Claim C2, amended: the values the code actually produces on the
octahedral fixture are about 0.2652 for l = 6 and about 0.6796 for l = 4;
within the 1e-2 tolerance they are 0.265 and 0.680, for every scale
0.1 < d < cutoff. -/
theorem octa_code_values (d cutoff : ℝ) (h1 : 0.1 < d) (h2 : d < cutoff) :
    |calc_q_local (0, 0, 0)
        [(d, 0, 0), (-d, 0, 0), (0, d, 0), (0, -d, 0), (0, 0, d), (0, 0, -d)]
        ["Pt", "Pt", "Pt", "Pt", "Pt", "Pt"] cutoff 6 true - 0.265| < 1e-2 ∧
    |calc_q_local (0, 0, 0)
        [(d, 0, 0), (-d, 0, 0), (0, d, 0), (0, -d, 0), (0, 0, d), (0, 0, -d)]
        ["Pt", "Pt", "Pt", "Pt", "Pt", "Pt"] cutoff 4 true - 0.680| < 1e-2 := by
  rw [calc_q_local_octa6 d cutoff h1 h2, calc_q_local_octa4 d cutoff h1 h2]
  have b6u : Real.sqrt (81 / 1152 + 1 / 60197437440000) < 0.275 :=
    (Real.sqrt_lt' (by norm_num)).mpr (by norm_num)
  have b6l : (0.255 : ℝ) < Real.sqrt (81 / 1152 + 1 / 60197437440000) :=
    (Real.lt_sqrt (by norm_num)).mpr (by norm_num)
  have b4u : Real.sqrt (133 / 288 + 1 / 13377208320) < 0.690 :=
    (Real.sqrt_lt' (by norm_num)).mpr (by norm_num)
  have b4l : (0.670 : ℝ) < Real.sqrt (133 / 288 + 1 / 13377208320) :=
    (Real.lt_sqrt (by norm_num)).mpr (by norm_num)
  constructor <;> rw [abs_sub_lt_iff] <;> constructor <;> linarith

/-- Claim C2, witness of the amended theorem at d = 1, cutoff = 3.5. -/
theorem octa_code_values_witness :
    (0.1 : ℝ) < 1 ∧ (1 : ℝ) < 3.5 ∧
    (|calc_q_local (0, 0, 0)
        [((1 : ℝ), 0, 0), (-1, 0, 0), (0, 1, 0), (0, -1, 0), (0, 0, 1), (0, 0, -1)]
        ["Pt", "Pt", "Pt", "Pt", "Pt", "Pt"] 3.5 6 true - 0.265| < 1e-2 ∧
     |calc_q_local (0, 0, 0)
        [((1 : ℝ), 0, 0), (-1, 0, 0), (0, 1, 0), (0, -1, 0), (0, 0, 1), (0, 0, -1)]
        ["Pt", "Pt", "Pt", "Pt", "Pt", "Pt"] 3.5 4 true - 0.680| < 1e-2) :=
  ⟨by norm_num, by norm_num, octa_code_values 1 3.5 (by norm_num) (by norm_num)⟩

lemma sq_vertex_px_zero :
    calc_q_local ((1 : ℝ), (0 : ℝ), (0 : ℝ))
      [((0 : ℝ), (0 : ℝ), (0 : ℝ)), (1, 0, 0), (-1, 0, 0), (0, 1, 0), (0, -1, 0)]
      ["Pt", "Pt", "Pt", "Pt", "Pt"] 1.5 6 true = 0 := by
  apply calc_q_local_lt_four
  have hs2a : (0.1 : ℝ) < Real.sqrt 2 := (Real.lt_sqrt (by norm_num)).mpr (by norm_num)
  have hs2b : Real.sqrt 2 < 1.5 := (Real.sqrt_lt' (by norm_num)).mpr (by norm_num)
  have e0 : vector_norm (vector_sub ((0 : ℝ), (0 : ℝ), (0 : ℝ)) ((1 : ℝ), (0 : ℝ), (0 : ℝ))) = 1 := by
    simp only [vector_sub, vector_norm]
    norm_num [Real.sqrt_one]
  have e1 : vector_norm (vector_sub ((1 : ℝ), (0 : ℝ), (0 : ℝ)) ((1 : ℝ), (0 : ℝ), (0 : ℝ))) = 0 := by
    simp only [vector_sub, vector_norm]
    norm_num [Real.sqrt_zero]
  have e2 : vector_norm (vector_sub ((-1 : ℝ), (0 : ℝ), (0 : ℝ)) ((1 : ℝ), (0 : ℝ), (0 : ℝ))) = 2 := by
    simp only [vector_sub, vector_norm]
    norm_num
    rw [show (4 : ℝ) = 2 ^ 2 by norm_num]
    exact Real.sqrt_sq (by norm_num)
  have e3 : vector_norm (vector_sub ((0 : ℝ), (1 : ℝ), (0 : ℝ)) ((1 : ℝ), (0 : ℝ), (0 : ℝ))) = Real.sqrt 2 := by
    simp only [vector_sub, vector_norm]
    norm_num
  have e4 : vector_norm (vector_sub ((0 : ℝ), (-1 : ℝ), (0 : ℝ)) ((1 : ℝ), (0 : ℝ), (0 : ℝ))) = Real.sqrt 2 := by
    simp only [vector_sub, vector_norm]
    norm_num
  unfold qualifying_count
  simp only [List.map_cons, List.map_nil, e0, e1, e2, e3, e4]
  simp only [List.filter_cons, List.filter_nil,
    decide_eq_true (show (0.1 : ℝ) < 1 by norm_num),
    decide_eq_true (show (1 : ℝ) < 1.5 by norm_num),
    decide_eq_false (show ¬ ((0.1 : ℝ) < 0) by norm_num),
    decide_eq_true (show (0.1 : ℝ) < 2 by norm_num),
    decide_eq_false (show ¬ ((2 : ℝ) < 1.5) by norm_num),
    decide_eq_true hs2a, decide_eq_true hs2b,
    Bool.true_and, Bool.and_true, Bool.false_and, Bool.and_false,
    if_true, if_false]
  simp

lemma sq_vertex_nx_zero :
    calc_q_local ((-1 : ℝ), (0 : ℝ), (0 : ℝ))
      [((0 : ℝ), (0 : ℝ), (0 : ℝ)), (1, 0, 0), (-1, 0, 0), (0, 1, 0), (0, -1, 0)]
      ["Pt", "Pt", "Pt", "Pt", "Pt"] 1.5 6 true = 0 := by
  apply calc_q_local_lt_four
  have hs2a : (0.1 : ℝ) < Real.sqrt 2 := (Real.lt_sqrt (by norm_num)).mpr (by norm_num)
  have hs2b : Real.sqrt 2 < 1.5 := (Real.sqrt_lt' (by norm_num)).mpr (by norm_num)
  have e0 : vector_norm (vector_sub ((0 : ℝ), (0 : ℝ), (0 : ℝ)) ((-1 : ℝ), (0 : ℝ), (0 : ℝ))) = 1 := by
    simp only [vector_sub, vector_norm]
    norm_num [Real.sqrt_one]
  have e1 : vector_norm (vector_sub ((1 : ℝ), (0 : ℝ), (0 : ℝ)) ((-1 : ℝ), (0 : ℝ), (0 : ℝ))) = 2 := by
    simp only [vector_sub, vector_norm]
    norm_num
    rw [show (4 : ℝ) = 2 ^ 2 by norm_num]
    exact Real.sqrt_sq (by norm_num)
  have e2 : vector_norm (vector_sub ((-1 : ℝ), (0 : ℝ), (0 : ℝ)) ((-1 : ℝ), (0 : ℝ), (0 : ℝ))) = 0 := by
    simp only [vector_sub, vector_norm]
    norm_num [Real.sqrt_zero]
  have e3 : vector_norm (vector_sub ((0 : ℝ), (1 : ℝ), (0 : ℝ)) ((-1 : ℝ), (0 : ℝ), (0 : ℝ))) = Real.sqrt 2 := by
    simp only [vector_sub, vector_norm]
    norm_num
  have e4 : vector_norm (vector_sub ((0 : ℝ), (-1 : ℝ), (0 : ℝ)) ((-1 : ℝ), (0 : ℝ), (0 : ℝ))) = Real.sqrt 2 := by
    simp only [vector_sub, vector_norm]
    norm_num
  unfold qualifying_count
  simp only [List.map_cons, List.map_nil, e0, e1, e2, e3, e4]
  simp only [List.filter_cons, List.filter_nil,
    decide_eq_true (show (0.1 : ℝ) < 1 by norm_num),
    decide_eq_true (show (1 : ℝ) < 1.5 by norm_num),
    decide_eq_false (show ¬ ((0.1 : ℝ) < 0) by norm_num),
    decide_eq_true (show (0.1 : ℝ) < 2 by norm_num),
    decide_eq_false (show ¬ ((2 : ℝ) < 1.5) by norm_num),
    decide_eq_true hs2a, decide_eq_true hs2b,
    Bool.true_and, Bool.and_true, Bool.false_and, Bool.and_false,
    if_true, if_false]
  simp

lemma sq_vertex_py_zero :
    calc_q_local ((0 : ℝ), (1 : ℝ), (0 : ℝ))
      [((0 : ℝ), (0 : ℝ), (0 : ℝ)), (1, 0, 0), (-1, 0, 0), (0, 1, 0), (0, -1, 0)]
      ["Pt", "Pt", "Pt", "Pt", "Pt"] 1.5 6 true = 0 := by
  apply calc_q_local_lt_four
  have hs2a : (0.1 : ℝ) < Real.sqrt 2 := (Real.lt_sqrt (by norm_num)).mpr (by norm_num)
  have hs2b : Real.sqrt 2 < 1.5 := (Real.sqrt_lt' (by norm_num)).mpr (by norm_num)
  have e0 : vector_norm (vector_sub ((0 : ℝ), (0 : ℝ), (0 : ℝ)) ((0 : ℝ), (1 : ℝ), (0 : ℝ))) = 1 := by
    simp only [vector_sub, vector_norm]
    norm_num [Real.sqrt_one]
  have e1 : vector_norm (vector_sub ((1 : ℝ), (0 : ℝ), (0 : ℝ)) ((0 : ℝ), (1 : ℝ), (0 : ℝ))) = Real.sqrt 2 := by
    simp only [vector_sub, vector_norm]
    norm_num
  have e2 : vector_norm (vector_sub ((-1 : ℝ), (0 : ℝ), (0 : ℝ)) ((0 : ℝ), (1 : ℝ), (0 : ℝ))) = Real.sqrt 2 := by
    simp only [vector_sub, vector_norm]
    norm_num
  have e3 : vector_norm (vector_sub ((0 : ℝ), (1 : ℝ), (0 : ℝ)) ((0 : ℝ), (1 : ℝ), (0 : ℝ))) = 0 := by
    simp only [vector_sub, vector_norm]
    norm_num [Real.sqrt_zero]
  have e4 : vector_norm (vector_sub ((0 : ℝ), (-1 : ℝ), (0 : ℝ)) ((0 : ℝ), (1 : ℝ), (0 : ℝ))) = 2 := by
    simp only [vector_sub, vector_norm]
    norm_num
    rw [show (4 : ℝ) = 2 ^ 2 by norm_num]
    exact Real.sqrt_sq (by norm_num)
  unfold qualifying_count
  simp only [List.map_cons, List.map_nil, e0, e1, e2, e3, e4]
  simp only [List.filter_cons, List.filter_nil,
    decide_eq_true (show (0.1 : ℝ) < 1 by norm_num),
    decide_eq_true (show (1 : ℝ) < 1.5 by norm_num),
    decide_eq_false (show ¬ ((0.1 : ℝ) < 0) by norm_num),
    decide_eq_true (show (0.1 : ℝ) < 2 by norm_num),
    decide_eq_false (show ¬ ((2 : ℝ) < 1.5) by norm_num),
    decide_eq_true hs2a, decide_eq_true hs2b,
    Bool.true_and, Bool.and_true, Bool.false_and, Bool.and_false,
    if_true, if_false]
  simp

lemma sq_vertex_ny_zero :
    calc_q_local ((0 : ℝ), (-1 : ℝ), (0 : ℝ))
      [((0 : ℝ), (0 : ℝ), (0 : ℝ)), (1, 0, 0), (-1, 0, 0), (0, 1, 0), (0, -1, 0)]
      ["Pt", "Pt", "Pt", "Pt", "Pt"] 1.5 6 true = 0 := by
  apply calc_q_local_lt_four
  have hs2a : (0.1 : ℝ) < Real.sqrt 2 := (Real.lt_sqrt (by norm_num)).mpr (by norm_num)
  have hs2b : Real.sqrt 2 < 1.5 := (Real.sqrt_lt' (by norm_num)).mpr (by norm_num)
  have e0 : vector_norm (vector_sub ((0 : ℝ), (0 : ℝ), (0 : ℝ)) ((0 : ℝ), (-1 : ℝ), (0 : ℝ))) = 1 := by
    simp only [vector_sub, vector_norm]
    norm_num [Real.sqrt_one]
  have e1 : vector_norm (vector_sub ((1 : ℝ), (0 : ℝ), (0 : ℝ)) ((0 : ℝ), (-1 : ℝ), (0 : ℝ))) = Real.sqrt 2 := by
    simp only [vector_sub, vector_norm]
    norm_num
  have e2 : vector_norm (vector_sub ((-1 : ℝ), (0 : ℝ), (0 : ℝ)) ((0 : ℝ), (-1 : ℝ), (0 : ℝ))) = Real.sqrt 2 := by
    simp only [vector_sub, vector_norm]
    norm_num
  have e3 : vector_norm (vector_sub ((0 : ℝ), (1 : ℝ), (0 : ℝ)) ((0 : ℝ), (-1 : ℝ), (0 : ℝ))) = 2 := by
    simp only [vector_sub, vector_norm]
    norm_num
    rw [show (4 : ℝ) = 2 ^ 2 by norm_num]
    exact Real.sqrt_sq (by norm_num)
  have e4 : vector_norm (vector_sub ((0 : ℝ), (-1 : ℝ), (0 : ℝ)) ((0 : ℝ), (-1 : ℝ), (0 : ℝ))) = 0 := by
    simp only [vector_sub, vector_norm]
    norm_num [Real.sqrt_zero]
  unfold qualifying_count
  simp only [List.map_cons, List.map_nil, e0, e1, e2, e3, e4]
  simp only [List.filter_cons, List.filter_nil,
    decide_eq_true (show (0.1 : ℝ) < 1 by norm_num),
    decide_eq_true (show (1 : ℝ) < 1.5 by norm_num),
    decide_eq_false (show ¬ ((0.1 : ℝ) < 0) by norm_num),
    decide_eq_true (show (0.1 : ℝ) < 2 by norm_num),
    decide_eq_false (show ¬ ((2 : ℝ) < 1.5) by norm_num),
    decide_eq_true hs2a, decide_eq_true hs2b,
    Bool.true_and, Bool.and_true, Bool.false_and, Bool.and_false,
    if_true, if_false]
  simp

lemma avg_q6_sq_frame :
    average_q6_for_mask
      [((0 : ℝ), (0 : ℝ), (0 : ℝ)), (1, 0, 0), (-1, 0, 0), (0, 1, 0), (0, -1, 0)]
      ["Pt", "Pt", "Pt", "Pt", "Pt"] [true, true, true, true, true] 1.5
    = Real.sqrt (113 / 512 + 1 / 26754416640000) / 5 := by
  unfold average_q6_for_mask
  simp only [List.zip_cons_cons, List.zip_nil_right, List.filter_cons,
    List.filter_nil, List.map_cons, List.map_nil, List.isEmpty_cons,
    Bool.false_eq_true, if_false, if_true, calc_q6_fast]
  rw [calc_q6_sq_center, sq_vertex_px_zero, sq_vertex_nx_zero,
    sq_vertex_py_zero, sq_vertex_ny_zero]
  simp [np_isnan]

/-- Claim C3, counterexample: on a 5-atom frame (square-planar centre with
four vertices, cutoff 1.5) the centre has Q6 = sqrt(113/512 + ...) > 0 and
each vertex has only 3 qualifying neighbors, hence the degenerate sentinel
0.0; the aggregator reports the mean of ALL five values, i.e. centre/5, not
the mean of the non-degenerate members (= the centre value), so a 0.0
member does lower the reported average. -/
theorem avg_q6_sentinel_lowers_average_cex :
    average_q6_for_mask
      [((0 : ℝ), (0 : ℝ), (0 : ℝ)), (1, 0, 0), (-1, 0, 0), (0, 1, 0), (0, -1, 0)]
      ["Pt", "Pt", "Pt", "Pt", "Pt"] [true, true, true, true, true] 1.5
      = calc_q6_fast ((0 : ℝ), (0 : ℝ), (0 : ℝ))
          [((0 : ℝ), (0 : ℝ), (0 : ℝ)), (1, 0, 0), (-1, 0, 0), (0, 1, 0), (0, -1, 0)]
          ["Pt", "Pt", "Pt", "Pt", "Pt"] 1.5 / 5 ∧
    calc_q6_fast ((1 : ℝ), (0 : ℝ), (0 : ℝ))
      [((0 : ℝ), (0 : ℝ), (0 : ℝ)), (1, 0, 0), (-1, 0, 0), (0, 1, 0), (0, -1, 0)]
      ["Pt", "Pt", "Pt", "Pt", "Pt"] 1.5 = 0 ∧
    0 < calc_q6_fast ((0 : ℝ), (0 : ℝ), (0 : ℝ))
          [((0 : ℝ), (0 : ℝ), (0 : ℝ)), (1, 0, 0), (-1, 0, 0), (0, 1, 0), (0, -1, 0)]
          ["Pt", "Pt", "Pt", "Pt", "Pt"] 1.5 ∧
    average_q6_for_mask
      [((0 : ℝ), (0 : ℝ), (0 : ℝ)), (1, 0, 0), (-1, 0, 0), (0, 1, 0), (0, -1, 0)]
      ["Pt", "Pt", "Pt", "Pt", "Pt"] [true, true, true, true, true] 1.5
      ≠ calc_q6_fast ((0 : ℝ), (0 : ℝ), (0 : ℝ))
          [((0 : ℝ), (0 : ℝ), (0 : ℝ)), (1, 0, 0), (-1, 0, 0), (0, 1, 0), (0, -1, 0)]
          ["Pt", "Pt", "Pt", "Pt", "Pt"] 1.5 := by
  have hq : calc_q6_fast ((0 : ℝ), (0 : ℝ), (0 : ℝ))
          [((0 : ℝ), (0 : ℝ), (0 : ℝ)), (1, 0, 0), (-1, 0, 0), (0, 1, 0), (0, -1, 0)]
          ["Pt", "Pt", "Pt", "Pt", "Pt"] 1.5 = Real.sqrt (113 / 512 + 1 / 26754416640000) :=
    calc_q6_sq_center
  have hpos : 0 < Real.sqrt (113 / 512 + 1 / 26754416640000) :=
    Real.sqrt_pos.mpr (by norm_num)
  refine ⟨?_, ?_, ?_, ?_⟩
  · rw [avg_q6_sq_frame, hq]
  · exact sq_vertex_px_zero
  · rw [hq]; exact hpos
  · rw [avg_q6_sq_frame, hq]
    intro h
    nlinarith [hpos]

/-- Claim C3, amended: the aggregator discards only NaN values; in this
embedding (real arithmetic, no NaN) nothing is discarded, so the reported
q6_global is the plain mean over ALL selected members including the
degenerate 0.0 sentinels (0.0 only when the selection is empty).  On the
concrete square-planar frame the reported value is centre/5 with a positive
centre value, i.e. the insufficient-neighbor members do lower the average. -/
theorem avg_q6_mean_of_all_members :
    (∀ (positions : List Vec3) (elements : List String) (mask : List Bool)
        (cutoff : ℝ),
      average_q6_for_mask positions elements mask cutoff =
        (let sel := ((positions.zip mask).filter (fun pm => pm.2)).map Prod.fst
         if sel.isEmpty then 0
         else (sel.map (fun p => calc_q6_fast p positions elements cutoff)).sum /
           ((sel.length : ℝ)))) ∧
    average_q6_for_mask
      [((0 : ℝ), (0 : ℝ), (0 : ℝ)), (1, 0, 0), (-1, 0, 0), (0, 1, 0), (0, -1, 0)]
      ["Pt", "Pt", "Pt", "Pt", "Pt"] [true, true, true, true, true] 1.5
      = calc_q6_fast ((0 : ℝ), (0 : ℝ), (0 : ℝ))
          [((0 : ℝ), (0 : ℝ), (0 : ℝ)), (1, 0, 0), (-1, 0, 0), (0, 1, 0), (0, -1, 0)]
          ["Pt", "Pt", "Pt", "Pt", "Pt"] 1.5 / 5 ∧
    0 < calc_q6_fast ((0 : ℝ), (0 : ℝ), (0 : ℝ))
          [((0 : ℝ), (0 : ℝ), (0 : ℝ)), (1, 0, 0), (-1, 0, 0), (0, 1, 0), (0, -1, 0)]
          ["Pt", "Pt", "Pt", "Pt", "Pt"] 1.5 := by
  have hq : calc_q6_fast ((0 : ℝ), (0 : ℝ), (0 : ℝ))
      [((0 : ℝ), (0 : ℝ), (0 : ℝ)), (1, 0, 0), (-1, 0, 0), (0, 1, 0), (0, -1, 0)]
      ["Pt", "Pt", "Pt", "Pt", "Pt"] 1.5
      = Real.sqrt (113 / 512 + 1 / 26754416640000) := calc_q6_sq_center
  refine ⟨?_, ?_, ?_⟩
  · intro positions elements mask cutoff
    unfold average_q6_for_mask
    simp only [np_isnan, Bool.not_false, List.filter_true, List.length_map]
    have hiso :
        ((((positions.zip mask).filter (fun pm => pm.2)).map Prod.fst).map
          (fun p => calc_q6_fast p positions elements cutoff)).isEmpty
        = (((positions.zip mask).filter (fun pm => pm.2)).map Prod.fst).isEmpty := by
      by_cases h : ((positions.zip mask).filter (fun pm => pm.2)).map Prod.fst = []
      · rw [h]; rfl
      · rw [List.isEmpty_eq_false.mpr (fun hmap => h (List.map_eq_nil_iff.mp hmap)),
          List.isEmpty_eq_false.mpr h]
    rw [hiso]
    by_cases hsel :
        ((((positions.zip mask).filter (fun pm => pm.2)).map Prod.fst)).isEmpty
    · simp only [if_pos hsel]
    · simp only [if_neg hsel]
  · rw [avg_q6_sq_frame, hq]
  · rw [hq]
    exact Real.sqrt_pos.mpr (by norm_num)

lemma calc_q_local_eq (centralPos : Vec3) (positions : List Vec3)
    (elements : List String) (cutoff : ℝ) (l : ℕ) (metalOnly : Bool) :
    calc_q_local centralPos positions elements cutoff l metalOnly =
      (let pairs :=
        ((select_neighbors positions elements metalOnly).map (fun pos =>
          let v := vector_sub pos centralPos
          (v, vector_norm v))).filter
          (fun vd => decide ((0.1 : ℝ) < vd.2) && decide (vd.2 < cutoff))
       if pairs.length < 4 then 0 else q_from_pairs l pairs) := by
  simp only [calc_q_local, q_from_pairs]
  by_cases he : (select_neighbors positions elements metalOnly).isEmpty
  · rw [if_pos he, List.isEmpty_iff.mp he]
    simp
  · rw [if_neg he]

lemma calc_q_local_append_far (centralPos : Vec3) (positions : List Vec3)
    (elements : List String) (cutoff : ℝ) (l : ℕ) (metalOnly : Bool)
    (p : Vec3) (e : String) (hlen : positions.length = elements.length)
    (hout : ¬ ((0.1 : ℝ) < vector_norm (vector_sub p centralPos) ∧
        vector_norm (vector_sub p centralPos) < cutoff)) :
    calc_q_local centralPos (positions ++ [p]) (elements ++ [e]) cutoff l metalOnly
      = calc_q_local centralPos positions elements cutoff l metalOnly := by
  rw [calc_q_local_eq, calc_q_local_eq]
  have hdec : (decide ((0.1 : ℝ) < vector_norm (vector_sub p centralPos)) &&
      decide (vector_norm (vector_sub p centralPos) < cutoff)) = false := by
    by_cases ha : (0.1 : ℝ) < vector_norm (vector_sub p centralPos)
    · rw [decide_eq_true ha, decide_eq_false (fun hb => hout ⟨ha, hb⟩)]
      rfl
    · rw [decide_eq_false ha]
      rfl
  have hsel : select_neighbors (positions ++ [p]) (elements ++ [e]) metalOnly
      = select_neighbors positions elements metalOnly ++
        select_neighbors [p] [e] metalOnly := by
    cases metalOnly with
    | false => simp [select_neighbors]
    | true =>
      simp only [select_neighbors, if_pos]
      rw [List.zip_append hlen, List.filter_append, List.map_append]
  have hone : ((select_neighbors [p] [e] metalOnly).map (fun pos =>
      let v := vector_sub pos centralPos
      (v, vector_norm v))).filter
      (fun vd => decide ((0.1 : ℝ) < vd.2) && decide (vd.2 < cutoff)) = [] := by
    cases metalOnly with
    | false =>
      simp [select_neighbors, hdec]
    | true =>
      simp only [select_neighbors, if_pos, List.zip_cons_cons, List.zip_nil_left,
        List.zip_nil_right, List.filter_cons, List.filter_nil]
      by_cases hc : (e == "Pt" || e == "Sn") = true
      · rw [if_pos hc]
        simp only [List.map_cons, List.map_nil, List.filter_cons, List.filter_nil,
          hdec]
        simp
      · rw [if_neg hc]
        rfl
  rw [hsel, List.map_append, List.filter_append, hone, List.append_nil]

/-- Claim C8: calc_q_local returns exactly the sentinel 0.0 whenever fewer
than 4 neighbors have distance strictly inside (0.1, cutoff) (for every
centre, neighbor list, cutoff, degree and selection mode — the embedding is
total, so no exception is possible), and a neighbor whose distance is
outside the open window (0.1, cutoff) never contributes: appending such an
atom to the frame leaves the result unchanged. -/
theorem calc_q_local_sentinel_and_window :
    (∀ (centralPos : Vec3) (positions : List Vec3) (elements : List String)
        (cutoff : ℝ) (l : ℕ) (metalOnly : Bool),
      qualifying_count centralPos positions cutoff < 4 →
      calc_q_local centralPos positions elements cutoff l metalOnly = 0) ∧
    (∀ (centralPos : Vec3) (positions : List Vec3) (elements : List String)
        (cutoff : ℝ) (l : ℕ) (metalOnly : Bool) (p : Vec3) (e : String),
      positions.length = elements.length →
      ¬ ((0.1 : ℝ) < vector_norm (vector_sub p centralPos) ∧
          vector_norm (vector_sub p centralPos) < cutoff) →
      calc_q_local centralPos (positions ++ [p]) (elements ++ [e]) cutoff l metalOnly
        = calc_q_local centralPos positions elements cutoff l metalOnly) :=
  ⟨fun c ps es cutoff l mo h => calc_q_local_lt_four c ps es cutoff l mo h,
   fun c ps es cutoff l mo p e hlen hout =>
     calc_q_local_append_far c ps es cutoff l mo p e hlen hout⟩

/-- Claim C8, witness: one neighbor at distance 1 (fewer than 4 qualify)
gives 0; appending an atom at distance 10 > cutoff = 3.5 leaves the result
unchanged. -/
theorem calc_q_local_sentinel_and_window_witness :
    calc_q_local ((0 : ℝ), (0 : ℝ), (0 : ℝ)) [((1 : ℝ), (0 : ℝ), (0 : ℝ))]
      ["Pt"] 3.5 6 true = 0 ∧
    calc_q_local ((0 : ℝ), (0 : ℝ), (0 : ℝ))
        ([((1 : ℝ), (0 : ℝ), (0 : ℝ))] ++ [((10 : ℝ), (0 : ℝ), (0 : ℝ))])
        (["Pt"] ++ ["Pt"]) 3.5 6 true
      = calc_q_local ((0 : ℝ), (0 : ℝ), (0 : ℝ)) [((1 : ℝ), (0 : ℝ), (0 : ℝ))]
          ["Pt"] 3.5 6 true := by
  constructor
  · refine calc_q_local_sentinel_and_window.1 _ _ _ _ _ _ ?_
    have e0 : vector_norm (vector_sub ((1 : ℝ), (0 : ℝ), (0 : ℝ))
        ((0 : ℝ), (0 : ℝ), (0 : ℝ))) = 1 := by
      simp only [vector_sub, vector_norm]
      norm_num [Real.sqrt_one]
    unfold qualifying_count
    simp only [List.map_cons, List.map_nil, e0, List.filter_cons, List.filter_nil,
      decide_eq_true (show (0.1 : ℝ) < 1 by norm_num),
      decide_eq_true (show (1 : ℝ) < 3.5 by norm_num), Bool.and_self, if_true]
    simp
  · refine calc_q_local_sentinel_and_window.2 _ _ _ _ _ _ _ _ rfl ?_
    have e10 : vector_norm (vector_sub ((10 : ℝ), (0 : ℝ), (0 : ℝ))
        ((0 : ℝ), (0 : ℝ), (0 : ℝ))) = 10 := by
      simp only [vector_sub, vector_norm]
      norm_num
      rw [show (100 : ℝ) = 10 ^ 2 by norm_num]
      exact Real.sqrt_sq (by norm_num)
    rw [e10]
    intro hcon
    have := hcon.2
    norm_num at this

/-- Claim C9, counterexample: with a frame containing only an O atom the
metal subset is empty, yet the result does NOT omit the metal group key:
the top-level keys are always cluster, metal, Pt, Sn, and the metal key is
present, mapped to the empty sub-dictionary (modelled as none). -/
theorem cluster_metal_key_present_cex :
    ((calc_cluster_analysis [((0 : ℝ), (0 : ℝ), (0 : ℝ))] ["O"] 3.5).map Prod.fst
      = ["cluster", "metal", "Pt", "Sn"]) ∧
    (calc_cluster_analysis [((0 : ℝ), (0 : ℝ), (0 : ℝ))] ["O"] 3.5).lookup "metal"
      = some none := by
  constructor
  · simp [calc_cluster_analysis]
  · simp [calc_cluster_analysis, List.lookup]

/-- Claim C9, amended: when no element of the frame is Pt or Sn,
calc_cluster_analysis still returns (no exception is possible: the
embedding is total) a result whose keys are exactly cluster, metal, Pt,
Sn; the metal key is present but holds the empty mapping (none, no
statistics), while the cluster, Pt and Sn groups each hold a populated
statistics entry. -/
theorem cluster_metal_empty_entry (positions : List Vec3)
    (elements : List String) (cutoff : ℝ)
    (h : ∀ e ∈ elements, e ≠ "Pt" ∧ e ≠ "Sn") :
    (calc_cluster_analysis positions elements cutoff).lookup "metal"
        = some none ∧
    ((calc_cluster_analysis positions elements cutoff).map Prod.fst
        = ["cluster", "metal", "Pt", "Sn"]) ∧
    (∃ s, (calc_cluster_analysis positions elements cutoff).lookup "cluster"
        = some (some s)) ∧
    (∃ s, (calc_cluster_analysis positions elements cutoff).lookup "Pt"
        = some (some s)) ∧
    (∃ s, (calc_cluster_analysis positions elements cutoff).lookup "Sn"
        = some (some s)) := by
  unfold calc_cluster_analysis
  by_cases hemp : (positions.isEmpty || elements.isEmpty) = true
  · rw [if_pos hemp]
    exact ⟨rfl, rfl, ⟨⟨0, 0⟩, rfl⟩, ⟨⟨0, 0⟩, rfl⟩, ⟨⟨0, 0⟩, rfl⟩⟩
  · rw [if_neg hemp]
    have hany : (elements.map (fun e => e == "Pt" || e == "Sn")).any id = false := by
      rw [List.any_eq_false]
      intro b hb
      rcases List.mem_map.mp hb with ⟨x, hx, rfl⟩
      rcases h x hx with ⟨h1, h2⟩
      simp [h1, h2]
    simp only [hany, Bool.false_eq_true, if_false]
    exact ⟨rfl, rfl, ⟨_, rfl⟩, ⟨_, rfl⟩, ⟨_, rfl⟩⟩

/-- Claim C9, witness of the amended theorem on a one-O-atom frame. -/
theorem cluster_metal_empty_entry_witness :
    (calc_cluster_analysis [((0 : ℝ), (0 : ℝ), (0 : ℝ))] ["O"] 3.5).lookup "metal"
        = some none ∧
    ((calc_cluster_analysis [((0 : ℝ), (0 : ℝ), (0 : ℝ))] ["O"] 3.5).map Prod.fst
        = ["cluster", "metal", "Pt", "Sn"]) ∧
    (∃ s, (calc_cluster_analysis [((0 : ℝ), (0 : ℝ), (0 : ℝ))] ["O"] 3.5).lookup "cluster"
        = some (some s)) ∧
    (∃ s, (calc_cluster_analysis [((0 : ℝ), (0 : ℝ), (0 : ℝ))] ["O"] 3.5).lookup "Pt"
        = some (some s)) ∧
    (∃ s, (calc_cluster_analysis [((0 : ℝ), (0 : ℝ), (0 : ℝ))] ["O"] 3.5).lookup "Sn"
        = some (some s)) :=
  cluster_metal_empty_entry [((0 : ℝ), (0 : ℝ), (0 : ℝ))] ["O"] 3.5
    (by intro e he; simp only [List.mem_singleton] at he; subst he
        exact ⟨by decide, by decide⟩)

/-- Claim C5, counterexample: with R0 = 1 > 0, NN = MM = 1 > 0, Dmax = 1 > 0
and D0 = 5, the switching function evaluated at r = D0 = 5 returns 0, not
1: the Dmax clamp zeroes it because D0 > Dmax. -/
theorem plumed_switch_at_D0_cex : plumed_switch_elem 1 1 1 5 1 5 = 0 := by
  norm_num [plumed_switch_elem, plumed_switch_raw]

/-- Claim C5, amended: whenever additionally D0 ≤ Dmax, the switching
function at r = D0 is exactly 1. -/
theorem plumed_switch_at_D0 (R0 : ℝ) (NN MM : ℕ) (D0 Dmax : ℝ)
    (_hR0 : 0 < R0) (hNN : 0 < NN) (hMM : 0 < MM) (_hDmax : 0 < Dmax)
    (hD0 : D0 ≤ Dmax) : plumed_switch_elem R0 NN MM D0 Dmax D0 = 1 := by
  have hx : (D0 - D0) / R0 = 0 := by rw [sub_self, zero_div]
  unfold plumed_switch_elem plumed_switch_raw
  simp only [hx, zero_pow hNN.ne', zero_pow hMM.ne', sub_zero]
  norm_num [if_neg (not_lt.mpr hD0)]

/-- Claim C5, witness of the amended theorem at R0 = NN = MM = Dmax = 1,
D0 = 0. -/
theorem plumed_switch_at_D0_witness : plumed_switch_elem 1 1 1 0 1 0 = 1 :=
  plumed_switch_at_D0 1 1 1 0 1 (by norm_num) (by norm_num) (by norm_num)
    (by norm_num) (by norm_num)

/-- Claim C6, counterexample: at R0 = 1, NN = 2, MM = 1, D0 = 0, Dmax = 10,
the distance r = 1 - 5e-9 produces a denominator of magnitude 5e-9 < 1e-8,
yet the result differs from the distance whose denominator is exactly 1e-8;
the sub-1e-8 denominator is not substituted. -/
theorem plumed_switch_small_den_cex :
    |1 - ((1 - 5e-9 - 0) / 1) ^ (1 : ℕ)| < (1e-8 : ℝ) ∧
    plumed_switch_elem 1 2 1 0 10 (1 - 5e-9) ≠
      plumed_switch_elem 1 2 1 0 10 (1 - 1e-8) := by
  constructor
  · rw [abs_sub_lt_iff]; norm_num
  · norm_num [plumed_switch_elem, plumed_switch_raw]

/-- Claim C6, amended: only a denominator exactly equal to zero is replaced
by 1e-8 before the division (x = -1 with MM = 2 gives denominator 0 and the
result num/1e-8 = 2e8), while a denominator of 5e-9 is divided by as-is
(giving 2 - 5e-9); no error is surfaced either way. -/
theorem plumed_switch_exact_zero_only :
    plumed_switch_elem 1 1 2 2 10 1 = 2e8 ∧
    plumed_switch_elem 1 2 1 0 10 (1 - 5e-9) = 2 - 5e-9 := by
  constructor <;> norm_num [plumed_switch_elem, plumed_switch_raw]

/-- Claim C7: classify_structure_advanced realizes exactly the claimed
decision tree over (q4, q6) with strict comparisons, and the three quoted
evaluations hold. -/
theorem classify_structure_advanced_spec :
    (∀ q4 q6 : ℝ, classify_structure_advanced q4 q6 = classify_spec_tree q4 q6) ∧
    classify_structure_advanced 0.2 0.65 = "FCC-like" ∧
    classify_structure_advanced 0.05 0.55 = "BCC-like" ∧
    classify_structure_advanced 0.1 0.20 = "Disordered" := by
  refine ⟨fun q4 q6 => ?_, by norm_num [classify_structure_advanced],
    by norm_num [classify_structure_advanced],
    by norm_num [classify_structure_advanced]⟩
  unfold classify_structure_advanced classify_spec_tree
  rcases lt_or_le 0.60 q6 with h1 | h1
  · simp only [if_pos h1]
  · simp only [if_neg (not_lt.mpr h1)]
    rcases lt_or_le 0.50 q6 with h2 | h2
    · simp only [if_pos h2,
        if_pos (show 0.50 < q6 ∧ q6 ≤ 0.60 from ⟨h2, h1⟩)]
    · simp only [if_neg (not_lt.mpr h2),
        if_neg (show ¬(0.50 < q6 ∧ q6 ≤ 0.60) from
          fun hc => absurd hc.1 (not_lt.mpr h2))]
      rcases lt_or_le 0.35 q6 with h3 | h3
      · simp only [if_pos h3,
          if_pos (show 0.35 < q6 ∧ q6 ≤ 0.50 from ⟨h3, h2⟩)]
      · simp only [if_neg (not_lt.mpr h3),
          if_neg (show ¬(0.35 < q6 ∧ q6 ≤ 0.50) from
            fun hc => absurd hc.1 (not_lt.mpr h3))]
        rcases lt_or_le 0.25 q6 with h4 | h4
        · simp only [if_pos h4,
            if_pos (show 0.25 < q6 ∧ q6 ≤ 0.35 from ⟨h4, h3⟩)]
        · simp only [if_neg (not_lt.mpr h4),
            if_neg (show ¬(0.25 < q6 ∧ q6 ≤ 0.35) from
              fun hc => absurd hc.1 (not_lt.mpr h4))]

/-- Claim C10: for every distance entry the denominator actually divided by
is nonzero (a denominator exactly 0 — and in real arithmetic -0.0 is 0 —
is replaced by 1e-8 first), and plumed_switch computes each entry as the
num / substituted-denominator ratio followed by the two clamps, hence is
total. -/
theorem plumed_switch_total (distances : List ℝ) (R0 : ℝ) (NN MM : ℕ)
    (D0 Dmax : ℝ) (_hR0 : R0 ≠ 0) :
    (∀ r ∈ distances, plumed_switch_den_used R0 MM D0 r ≠ 0) ∧
    plumed_switch distances R0 NN MM D0 Dmax =
      distances.map (fun r =>
        let sw := (1 - ((r - D0) / R0) ^ NN) / plumed_switch_den_used R0 MM D0 r
        let sw2 := if Dmax < r then 0 else sw
        if sw2 < 0 then 0 else sw2) := by
  constructor
  · intro r _
    unfold plumed_switch_den_used
    by_cases h : (1 : ℝ) - ((r - D0) / R0) ^ MM = 0
    · rw [if_pos h]; norm_num
    · rw [if_neg h]; exact h
  · rfl

/-- Claim C10, witness at distances = [0], R0 = 1, NN = 6, MM = 12, D0 = 0,
Dmax = 10. -/
theorem plumed_switch_total_witness :
    (∀ r ∈ [(0 : ℝ)], plumed_switch_den_used 1 12 0 r ≠ 0) ∧
    plumed_switch [(0 : ℝ)] 1 6 12 0 10 =
      [(0 : ℝ)].map (fun r =>
        let sw := (1 - ((r - 0) / 1) ^ (6 : ℕ)) / plumed_switch_den_used 1 12 0 r
        let sw2 := if (10 : ℝ) < r then 0 else sw
        if sw2 < 0 then 0 else sw2) :=
  plumed_switch_total [(0 : ℝ)] 1 6 12 0 10 (by norm_num)

/-- Claim C4: the Sn distance list is not filtered for self-distances in
calc_gcn_descriptors — an Sn centre listed in the Sn positions contributes
its own zero distance: with no Pt atoms and the centre as the only Sn atom
the standard GCN is exp(0) = 1 (not 0) and the weighted GCN is 2 (not 0). -/
theorem gcn_sn_self_distance_counted :
    (calc_gcn_descriptors (0, 0, 0) [] [(0, 0, 0)]).gcn_loc = 1 ∧
    (calc_gcn_descriptors (0, 0, 0) [] [(0, 0, 0)]).w_gcn_loc = 2 ∧
    (calc_gcn_descriptors (0, 0, 0) [] [(0, 0, 0)]).sn_w_gcn_loc = 0 ∧
    (calc_gcn_descriptors (0, 0, 0) [] [(0, 0, 0)]).shell_gcn_loc = 0 := by
  refine ⟨?_, ?_, ?_, ?_⟩ <;>
    norm_num [calc_gcn_descriptors, vector_sub, vector_norm, count_in_window,
      gcn_shells, Real.sqrt_zero, Real.exp_zero]

end
